import Mathlib

/-!
# Failover control of the postgres operator

A shallow embedding of `controller/podcontroller.go` (the pod controller:
`checkPostgresPods`, `checkReadyStatus`, the event handlers) and of
`operator/cluster/failover_strategy_1.go` (`Strategy1.Failover`,
`updateFailoverStatus`, `deletePrimary`, `promote`, `validateDBContainer`).

The Go code talks to the Kubernetes API through the packages `kubeapi` and
`util`, and to the packages `operator/cluster` and `operator/task` for its
triggers.  Those calls are the fields of a `Platform`; the code is written
once, over an arbitrary platform, in a state monad that also records every
collaborator call and every log call in a trace.  A piece of code either
returns or panics: the write of an entry into a label map that is `nil` is a
run-time panic in Go, and the run ends there.  `Run` and `watchPods` of the
controller only register the three handlers with the informer and are not
embedded.

The code is run on two platforms: one that answers each call from a script of
answers, for the properties that hold for all outcomes of the calls, and one
over a state of instances, workloads and tasks modelled from the spec, for the
invariant of the data model.
-/

namespace PostgresOperator

/-! ## Data model -/

/-- A Go `error`, identified by its message; `nil` is `none : Option Error`. -/
abbrev Error := String

/-- A Go `map[string]string` of an object served by the API: the `nil` map of
an object that has no labels, or an allocated map with its entries in some
order.  It is read through `Labels.get` and written through `Labels.set`. -/
inductive Labels where
  | nil
  | map (entries : List (String × String))
deriving DecidableEq, Repr

/-- The entries of the map; a `nil` map has none. -/
def Labels.entries : Labels → List (String × String)
  | .nil => []
  | .map m => m

/-- The entry of the map for `k`, if there is one. -/
def Labels.lookup (m : Labels) (k : String) : Option String :=
  m.entries.lookup k

/-- The map read `m[k]`: the value of the first entry for `k`, and the empty
string when there is none.  Reading a `nil` map is allowed and yields the
empty string. -/
def Labels.get (m : Labels) (k : String) : String :=
  (m.lookup k).getD ""

/-- The entries of an allocated map after the write `m[k] = v`: the entry for
`k` is replaced where it stands, or added when there is none; no other entry
is touched. -/
def setEntry : List (String × String) → String → String → List (String × String)
  | [], k, v => [(k, v)]
  | e :: m, k, v => if e.1 = k then (k, v) :: m else e :: setEntry m k v

/-- The map write `m[k] = v`: the map after the write, or `none` when the map
is `nil`, where Go panics with `assignment to entry in nil map`. -/
def Labels.set : Labels → String → String → Option Labels
  | .nil, _, _ => none
  | .map m, k, v => some (.map (setEntry m k v))

/-- The part of `v1.Container` the code reads. -/
structure Container where
  name : String
deriving DecidableEq, Repr

/-- The part of `v1.ContainerStatus` the code reads. -/
structure ContainerStatus where
  name : String
  ready : Bool
deriving DecidableEq, Repr

/-- The part of `v1.Pod` the code reads.  The API server admits no pod without
a container, so `Spec.Containers` is kept as its first element and the rest,
and `Spec.Containers[0]` is `firstContainer`. -/
structure Pod where
  name : String
  ns : String
  selfLink : String
  labels : Labels
  firstContainer : Container
  moreContainers : List Container
  containerStatuses : List ContainerStatus
deriving DecidableEq, Repr

/-- The pod with the entry `k` of its label map set to `v`: what the statement
`pod.ObjectMeta.Labels[k] = v` leaves when the map of the pod is allocated. -/
def Pod.withLabel (pod : Pod) (k v : String) : Pod :=
  { pod with labels := .map (setEntry pod.labels.entries k v) }

/-- The statement `pod.ObjectMeta.Labels[k] = v`: the pod after it, or `none`
when the label map of the pod is `nil` and the statement panics. -/
def Pod.setLabel (pod : Pod) (k v : String) : Option Pod :=
  (pod.labels.set k v).map fun m => { pod with labels := m }

/-- The slice `pod.Spec.Containers`. -/
def Pod.containers (pod : Pod) : List Container :=
  pod.firstContainer :: pod.moreContainers

/-- The part of `crv1.Pgtask` the code reads and writes. -/
structure Pgtask where
  name : String
  ns : String
  labels : Labels
  statusMessage : String
deriving DecidableEq, Repr

/-- The part of `PodController` that is data: the two clients are handles on
the platform. -/
structure PodController where
  ns : String
deriving DecidableEq, Repr

/-- The levels of the logger the code uses. -/
inductive Level where
  | debug
  | info
  | error
deriving DecidableEq, Repr

/-- What the code does to the outside, in the order it does it: the calls of
`kubeapi` and `util`, the three triggers, and the log calls.  `log` is a call
of `log.Info` or `log.Error` with its operands, `logf` a call of `log.Infof`,
`log.Debugf` or `log.Errorf` with its format and its operands. -/
inductive Event where
  | utilGetPod (name ns : String)
  | getPod (name ns : String)
  | updatePod (pod : Pod) (ns : String)
  | getPods (selector ns : String)
  | deleteDeployment (name ns : String)
  | execToPodThroughAPI (command : List String) (container podName ns : String)
      (stdin : Option String)
  | getpgtask (name ns : String)
  | updatepgtask (task : Pgtask) (name ns : String)
  | autofailBase (ready : Bool) (cluster ns : String)
  | applyPolicies (cluster : String)
  | completeCreateClusterWorkflow (cluster : String)
  | log (level : Level) (operands : List String)
  | logf (level : Level) (format : String) (operands : List String)
deriving DecidableEq, Repr

/-- Whether the event is a call of a collaborator rather than a log call. -/
def Event.isCall : Event → Bool
  | .log _ _ => false
  | .logf _ _ _ => false
  | _ => true

/-- The collaborator calls of a trace, in order. -/
def calls (trace : List Event) : List Event :=
  trace.filter Event.isCall

/-! ## The platform -/

/-- The label keys of package `util`, which is not among the sources, taken as
parameters: the keys of the label protocol (role, cluster, autofail, service
selector, workload name) and the target label of a task.  Nothing is assumed
about their values. -/
structure Util where
  LABEL_PRIMARY : String
  LABEL_PG_CLUSTER : String
  LABEL_AUTOFAIL : String
  LABEL_SERVICE_NAME : String
  LABEL_DEPLOYMENT_NAME : String
  LABEL_TARGET : String
deriving DecidableEq, Repr

/-- The collaborators of the code over a platform state `σ`: each call takes
the state and yields its Go results and the next state.
`kubeapi.GetPod` yields `(pod, found, err)`; the code drops `found`, so the
result is the pod or the error.  `kubeapi.GetPods` yields a list and an error,
and the code reads the list whatever the error.  `kubeapi.Getpgtask` decodes
the task it read into its argument, so its result is that task or the error. -/
structure Platform (σ : Type) where
  util : Util
  utilGetPod : String → String → σ → Except Error Pod × σ
  getPod : String → String → σ → Except Error Pod × σ
  updatePod : Pod → String → σ → Option Error × σ
  getPods : String → String → σ → (List Pod × Option Error) × σ
  deleteDeployment : String → String → σ → Option Error × σ
  execToPodThroughAPI :
    List String → String → String → String → Option String → σ →
      (String × String × Option Error) × σ
  getpgtask : String → String → σ → Except Error Pgtask × σ
  updatepgtask : Pgtask → String → String → σ → Option Error × σ
  autofailBase : Bool → String → String → σ → σ
  applyPolicies : String → σ → σ
  completeCreateClusterWorkflow : String → σ → σ

/-- The platform state together with the trace of what the code did so far. -/
structure World (σ : Type) where
  state : σ
  trace : List Event

/-- How a piece of the code ends: it returns a value, or it panics and returns
nothing (the operator has no `recover`, so a panic ends the run). -/
inductive Result (α : Type) where
  | returned (value : α)
  | panicked
deriving DecidableEq, Repr

/-- A piece of the code: from a world to the way it ends and the world it
leaves. -/
def Run (σ : Type) (α : Type) : Type := World σ → Result α × World σ

/-- Pieces of code run one after the other, the second on the world the first
leaves; after a panic nothing more is run. -/
instance {σ : Type} : Monad (Run σ) where
  pure a := fun w => (.returned a, w)
  bind x f := fun w =>
    match (x w).1 with
    | .returned a => f a (x w).2
    | .panicked => (.panicked, (x w).2)

/-- A call of a collaborator: the event is recorded, the platform answers. -/
def call {σ α : Type} (e : Event) (f : σ → α × σ) : Run σ α :=
  fun w => (.returned (f w.state).1, { state := (f w.state).2, trace := w.trace ++ [e] })

/-- A call of a trigger, which returns nothing. -/
def trigger {σ : Type} (e : Event) (f : σ → σ) : Run σ Unit :=
  fun w => (.returned (), { state := f w.state, trace := w.trace ++ [e] })

/-- A log call: only the trace changes. -/
def emit {σ : Type} (e : Event) : Run σ Unit :=
  fun w => (.returned (), { w with trace := w.trace ++ [e] })

/-- A run-time panic: the run ends in the world it is in. -/
def crash {σ α : Type} : Run σ α :=
  fun w => (.panicked, w)

/-- The statement `pod.ObjectMeta.Labels[k] = v` as a piece of code: it leaves
the pod with the entry set, and panics when the label map of the pod is
`nil`. -/
def assignLabel {σ : Type} (pod : Pod) (k v : String) : Run σ Pod :=
  match pod.setLabel k v with
  | some written => pure written
  | none => crash

/-! ## controller/podcontroller.go -/

section Code
variable {σ : Type} (P : Platform σ)

/-- The two loops of `checkReadyStatus` over `Status.ContainerStatuses`: the
first calls `clusteroperator.AutofailBase` for each status named `database`. -/
def autofailLoop (newpod : Pod) : List ContainerStatus → Run σ Unit
  | [] => pure ()
  | v :: rest => do
    if v.name = "database" then
      trigger
        (.autofailBase v.ready (newpod.labels.get P.util.LABEL_PG_CLUSTER) newpod.ns)
        (P.autofailBase v.ready (newpod.labels.get P.util.LABEL_PG_CLUSTER) newpod.ns)
    autofailLoop newpod rest

/-- The second loop of `checkReadyStatus`: for each status named `database`
that is ready, `taskoperator.ApplyPolicies` and then
`taskoperator.CompleteCreateClusterWorkflow`. -/
def policyLoop (newpod : Pod) : List ContainerStatus → Run σ Unit
  | [] => pure ()
  | v :: rest => do
    if v.name = "database" then
      if v.ready then
        emit (.logf .debug "%s went to Ready, apply policies..."
          [newpod.labels.get P.util.LABEL_PG_CLUSTER])
        trigger (.applyPolicies (newpod.labels.get P.util.LABEL_PG_CLUSTER))
          (P.applyPolicies (newpod.labels.get P.util.LABEL_PG_CLUSTER))
        trigger (.completeCreateClusterWorkflow (newpod.labels.get P.util.LABEL_PG_CLUSTER))
          (P.completeCreateClusterWorkflow (newpod.labels.get P.util.LABEL_PG_CLUSTER))
    policyLoop newpod rest

/-- The method `(c *PodController) checkReadyStatus(oldpod, newpod)`. -/
def checkReadyStatus (_c : PodController) (_oldpod newpod : Pod) : Run σ Unit := do
  if newpod.labels.get P.util.LABEL_PRIMARY = "true" ∧
      newpod.labels.get P.util.LABEL_PG_CLUSTER ≠ "" ∧
      newpod.labels.get P.util.LABEL_AUTOFAIL = "true" then
    emit (.logf .info "an autofail pg-cluster %s!" [newpod.labels.get P.util.LABEL_PG_CLUSTER])
    autofailLoop P newpod newpod.containerStatuses
  if newpod.labels.get P.util.LABEL_PRIMARY = "true" then
    policyLoop P newpod newpod.containerStatuses

/-- The method `(c *PodController) onUpdate(oldObj, newObj)`. -/
def onUpdate (c : PodController) (oldpod newpod : Pod) : Run σ Unit := do
  emit (.logf .debug "[PodCONTROLLER] OnUpdate %s" [newpod.selfLink])
  checkReadyStatus P c oldpod newpod

/-- The method `(c *PodController) onDelete(obj)`. -/
def onDelete (_c : PodController) (pod : Pod) : Run σ Unit :=
  emit (.logf .debug "[PodCONTROLLER] OnDelete %s" [pod.selfLink])

/-- The `if` / `else if` of `checkPostgresPods` between the fetch and the write
of one attempt: the debug line, then the statement that sets `service-name` on
the fetched pod from the labels of the added pod.  The result is the pod the
attempt goes on to write; the statement panics when the fetched pod has no
label map. -/
def relabelled (newpod pod : Pod) : Run σ Pod :=
  if newpod.labels.get P.util.LABEL_PRIMARY = "true" then do
    emit (.logf .debug "primary pod ADDED %s service-name=%s"
      [newpod.name, newpod.labels.get P.util.LABEL_PG_CLUSTER])
    assignLabel pod P.util.LABEL_SERVICE_NAME (newpod.labels.get P.util.LABEL_PG_CLUSTER)
  else if newpod.labels.get P.util.LABEL_PRIMARY = "false" then do
    emit (.logf .debug "replica pod ADDED %s service-name=%s"
      [newpod.name, newpod.labels.get P.util.LABEL_PG_CLUSTER ++ "-replica"])
    assignLabel pod P.util.LABEL_SERVICE_NAME
      (newpod.labels.get P.util.LABEL_PG_CLUSTER ++ "-replica")
  else
    pure pod

/-- The loop `for i := 0; i < tries; i++` of `checkPostgresPods`, by the
number of iterations still to run.  `return` and `break` both end it, as no
statement follows the loop. -/
def checkPostgresPodsLoop (c : PodController) (newpod : Pod) : Nat → Run σ Unit
  | 0 => pure ()
  | n + 1 =>
    if newpod.labels.get P.util.LABEL_PRIMARY = "true" ∨
        newpod.labels.get P.util.LABEL_PRIMARY = "false" then do
      let r ← call (.getPod newpod.name c.ns) (P.getPod newpod.name c.ns)
      match r with
      | .error err => do
        emit (.log .error [err])
        emit (.log .error [" could not get pod %s", newpod.name])
      | .ok fetched => do
        let pod ← relabelled P newpod fetched
        let err ← call (.updatePod pod c.ns) (P.updatePod pod c.ns)
        match err with
        | none => pure ()
        | some e => do
          emit (.log .error [e])
          emit (.logf .error
            " could not update pod label for pod %s and label %s will try update again..."
            [pod.name, pod.labels.get P.util.LABEL_SERVICE_NAME])
          checkPostgresPodsLoop c newpod n
    else
      checkPostgresPodsLoop c newpod n

/-- The method `(c *PodController) checkPostgresPods(newpod)`, with
`tries := 8`. -/
def checkPostgresPods (c : PodController) (newpod : Pod) : Run σ Unit :=
  checkPostgresPodsLoop P c newpod 8

/-- The method `(c *PodController) onAdd(obj)`. -/
def onAdd (c : PodController) (newpod : Pod) : Run σ Unit := do
  emit (.logf .debug "[PodCONTROLLER] OnAdd %s" [newpod.selfLink])
  checkPostgresPods P c newpod

/-! ## operator/cluster/failover_strategy_1.go

`relabel` and `updateLabels` are called from nowhere (the call in `Failover`
is commented out) and are not embedded. -/

/-- The function `updateFailoverStatus(client, task, namespace, clusterName,
message)`.  `task` is a pointer: `Getpgtask` decodes into it and the message is
then set on it, so the task as the function leaves it is the result. -/
def updateFailoverStatus (task : Pgtask) (ns _clusterName message : String) :
    Run σ Pgtask := do
  emit (.logf .debug "updateFailoverStatus namespace=[%s] taskName=[%s] message=[%s]"
    [ns, task.name, message])
  let r ← call (.getpgtask task.name task.ns) (P.getpgtask task.name task.ns)
  match r with
  | .error _ => pure task
  | .ok fetched => do
    let task : Pgtask := { fetched with statusMessage := message }
    let _ ← call (.updatepgtask task task.name task.ns) (P.updatepgtask task task.name task.ns)
    pure task

/-- The function `deletePrimary(clientset, namespace, clusterName)`.  The error
of `GetPods` is overwritten unread; the two tests on `len(pods.Items)` and the
read of `pods.Items[0]` are the three cases of the list. -/
def deletePrimary (ns clusterName : String) : Run σ (Option Error) := do
  let selector := P.util.LABEL_SERVICE_NAME ++ "=" ++ clusterName
  let r ← call (.getPods selector ns) (P.getPods selector ns)
  match r.1 with
  | [] => do
    emit (.logf .error "no primary pod found when trying to delete primary %s" [selector])
    pure (some "could not find primary pod")
  | _ :: _ :: _ => do
    emit (.logf .error "more than 1 primary pod found when trying to delete primary %s"
      [selector])
    pure (some "more than 1 primary pod found in delete primary logic")
  | [item] => do
    let deploymentToDelete := item.labels.get P.util.LABEL_DEPLOYMENT_NAME
    emit (.logf .debug "deleting deployment %s" [deploymentToDelete])
    call (.deleteDeployment deploymentToDelete ns) (P.deleteDeployment deploymentToDelete ns)

/-- The function `promote(pod, clientset, client, namespace, restconfig)`. -/
def promote (pod : Pod) (ns : String) : Run σ (Option Error) := do
  let command := ["/opt/cpm/bin/promote.sh"]
  emit (.logf .debug "running Exec with namespace=[%s] podname=[%s] container name=[%s]"
    [ns, pod.name, pod.firstContainer.name])
  let r ← call (.execToPodThroughAPI command pod.firstContainer.name pod.name ns none)
    (P.execToPodThroughAPI command pod.firstContainer.name pod.name ns none)
  emit (.logf .debug "stdout=[%s] stderr=[%s]" [r.1, r.2.1])
  match r.2.2 with
  | some err => do
    emit (.log .error [err])
    pure (some err)
  | none => pure none

/-- The method `(r Strategy1) Failover(clientset, client, clusterName, task,
namespace, restconfig)`.  The result is the error it returns; the task is
handed from one status report to the next as each leaves it.  The statement
that sets `service-name` on the re-fetched candidate panics when that pod has
no label map. -/
def Failover (clusterName : String) (task : Pgtask) (ns : String) : Run σ (Option Error) := do
  let target := task.labels.get P.util.LABEL_TARGET
  emit (.log .info ["strategy 1 Failover called on " ++ clusterName ++ " target is " ++ target])
  let r ← call (.utilGetPod target ns) (P.utilGetPod target ns)
  match r with
  | .error err => do
    emit (.log .error [err])
    pure (some err)
  | .ok pod => do
    emit (.logf .debug "best pod to failover to is %s" [pod.name])
    let err ← deletePrimary P ns clusterName
    match err with
    | some err => do
      emit (.log .error [err])
      pure (some err)
    | none => do
      let task ← updateFailoverStatus P task ns clusterName
        ("deleting primary deployment " ++ clusterName)
      let _ ← promote P pod ns
      let task ← updateFailoverStatus P task ns clusterName
        ("promoting pod " ++ pod.name ++ " target " ++ target)
      let r ← call (.getPod pod.name ns) (P.getPod pod.name ns)
      match r with
      | .error err => do
        emit (.log .error [err])
        emit (.log .error ["error in getting pod during failover relabel"])
        pure (some err)
      | .ok upod => do
        let upod ← assignLabel upod P.util.LABEL_SERVICE_NAME clusterName
        let err ← call (.updatePod upod ns) (P.updatePod upod ns)
        match err with
        | some err => do
          emit (.log .error [err])
          emit (.log .error ["error in updating pod during failover relabel"])
          pure (some err)
        | none => do
          let _ ← updateFailoverStatus P task ns clusterName
            ("re-labeling deployment...pod " ++ pod.name ++
              "was the failover target...failover completed")
          pure none

/-- The function `validateDBContainer(pod)`. -/
def validateDBContainer (pod : Pod) : Bool :=
  pod.containers.any fun c => c.name == "database"

end Code

/-! ## A platform that answers from a script -/

/-- The answers of the platform in one run, per call and in call order: answer
`i` of a field is what the call of that name gets the `i`-th time it is made
(from 0).  The code is deterministic, so a run against any platform is the
run against the script of the answers that platform gave. -/
structure Script where
  utilGetPod : Nat → Except Error Pod
  getPod : Nat → Except Error Pod
  updatePod : Nat → Option Error
  getPods : Nat → List Pod × Option Error
  deleteDeployment : Nat → Option Error
  execToPodThroughAPI : Nat → String × String × Option Error
  getpgtask : Nat → Except Error Pgtask
  updatepgtask : Nat → Option Error

/-- How many calls of each name were answered so far. -/
structure Cursor where
  utilGetPod : Nat
  getPod : Nat
  updatePod : Nat
  getPods : Nat
  deleteDeployment : Nat
  execToPodThroughAPI : Nat
  getpgtask : Nat
  updatepgtask : Nat
deriving DecidableEq, Repr

/-- The cursor before any call. -/
def Cursor.start : Cursor :=
  ⟨0, 0, 0, 0, 0, 0, 0, 0⟩

/-- The platform that answers from the script `sc`, with label keys `u`.  The
triggers return nothing and leave the cursor alone. -/
def scripted (u : Util) (sc : Script) : Platform Cursor where
  util := u
  utilGetPod _ _ k := (sc.utilGetPod k.utilGetPod, { k with utilGetPod := k.utilGetPod + 1 })
  getPod _ _ k := (sc.getPod k.getPod, { k with getPod := k.getPod + 1 })
  updatePod _ _ k := (sc.updatePod k.updatePod, { k with updatePod := k.updatePod + 1 })
  getPods _ _ k := (sc.getPods k.getPods, { k with getPods := k.getPods + 1 })
  deleteDeployment _ _ k :=
    (sc.deleteDeployment k.deleteDeployment, { k with deleteDeployment := k.deleteDeployment + 1 })
  execToPodThroughAPI _ _ _ _ _ k :=
    (sc.execToPodThroughAPI k.execToPodThroughAPI,
      { k with execToPodThroughAPI := k.execToPodThroughAPI + 1 })
  getpgtask _ _ k := (sc.getpgtask k.getpgtask, { k with getpgtask := k.getpgtask + 1 })
  updatepgtask _ _ _ k :=
    (sc.updatepgtask k.updatepgtask, { k with updatepgtask := k.updatepgtask + 1 })
  autofailBase _ _ _ k := k
  applyPolicies _ k := k
  completeCreateClusterWorkflow _ k := k

/-- How a piece of code ends and the trace it leaves, when run from the state
`s` with an empty trace. -/
def outcome {σ α : Type} (x : Run σ α) (s : σ) : Result α × List Event :=
  ((x ⟨s, []⟩).1, (x ⟨s, []⟩).2.trace)

/-! ## Summaries of traces -/

/-- Whether the event is a call of `clusteroperator.AutofailBase`. -/
def Event.isAutofailBase : Event → Bool
  | .autofailBase _ _ _ => true
  | _ => false

/-- The events of the first branch of `checkReadyStatus` for the pod `newpod`. -/
def autofailEvents (u : Util) (newpod : Pod) : List Event :=
  if newpod.labels.get u.LABEL_PRIMARY = "true" ∧ newpod.labels.get u.LABEL_PG_CLUSTER ≠ "" ∧
      newpod.labels.get u.LABEL_AUTOFAIL = "true" then
    Event.logf .info "an autofail pg-cluster %s!" [newpod.labels.get u.LABEL_PG_CLUSTER] ::
      (newpod.containerStatuses.filter fun v => v.name = "database").map fun v =>
        Event.autofailBase v.ready (newpod.labels.get u.LABEL_PG_CLUSTER) newpod.ns
  else []

/-- The events of the second branch of `checkReadyStatus` for the pod `newpod`. -/
def policyEvents (u : Util) (newpod : Pod) : List Event :=
  if newpod.labels.get u.LABEL_PRIMARY = "true" then
    (newpod.containerStatuses.filter fun v => v.name = "database" ∧ v.ready = true).flatMap
      fun _ =>
        [Event.logf .debug "%s went to Ready, apply policies..."
            [newpod.labels.get u.LABEL_PG_CLUSTER],
          Event.applyPolicies (newpod.labels.get u.LABEL_PG_CLUSTER),
          Event.completeCreateClusterWorkflow (newpod.labels.get u.LABEL_PG_CLUSTER)]
  else []

/-- Whether the event is a call of `taskoperator.ApplyPolicies` or of
`taskoperator.CompleteCreateClusterWorkflow`. -/
def Event.isPolicyCall : Event → Bool
  | .applyPolicies _ => true
  | .completeCreateClusterWorkflow _ => true
  | _ => false

/-- The value `checkPostgresPods` gives the label `service-name` of a pod added
with the role `true` or `false`. -/
def serviceName (u : Util) (newpod : Pod) : String :=
  if newpod.labels.get u.LABEL_PRIMARY = "true" then newpod.labels.get u.LABEL_PG_CLUSTER
  else newpod.labels.get u.LABEL_PG_CLUSTER ++ "-replica"

/-- The debug line of `checkPostgresPods` for a pod added with the role `true`
or `false`. -/
def addedLine (u : Util) (newpod : Pod) : Event :=
  if newpod.labels.get u.LABEL_PRIMARY = "true" then
    .logf .debug "primary pod ADDED %s service-name=%s"
      [newpod.name, newpod.labels.get u.LABEL_PG_CLUSTER]
  else
    .logf .debug "replica pod ADDED %s service-name=%s"
      [newpod.name, newpod.labels.get u.LABEL_PG_CLUSTER ++ "-replica"]

/-- The events of one attempt of `checkPostgresPods` up to its write, when the
fetch yields `fetched`, a pod with a label map. -/
def attempt (u : Util) (c : PodController) (newpod fetched : Pod) : List Event :=
  [.getPod newpod.name c.ns, addedLine u newpod,
    .updatePod (fetched.withLabel u.LABEL_SERVICE_NAME (serviceName u newpod)) c.ns]

/-- The two error lines of `checkPostgresPods` after a write that failed with
`e`. -/
def retryLines (u : Util) (newpod fetched : Pod) (e : Error) : List Event :=
  [.log .error [e],
    .logf .error " could not update pod label for pod %s and label %s will try update again..."
      [fetched.name,
        (fetched.withLabel u.LABEL_SERVICE_NAME (serviceName u newpod)).labels.get
          u.LABEL_SERVICE_NAME]]

/-- The label keys under the names the label protocol of the spec gives them. -/
def specKeys : Util :=
  ⟨"role", "cluster", "autofail", "service-selector", "workload-name", "target"⟩

/-- The primary `c1-a` of the cluster `c1`, its database container ready. -/
def podC1a : Pod :=
  { name := "c1-a", ns := "ns", selfLink := "/api/v1/namespaces/ns/pods/c1-a",
    labels := .map [("role", "true"), ("cluster", "c1"), ("autofail", "false")],
    firstContainer := ⟨"database"⟩, moreContainers := [],
    containerStatuses := [⟨"database", true⟩] }

/-- A script in which every call succeeds, but for the first two writes of a
pod. -/
def retryScript : Script :=
  { utilGetPod := fun _ => .ok podC1a
    getPod := fun _ => .ok podC1a
    updatePod := fun i => if i < 2 then some "conflict" else none
    getPods := fun _ => ([podC1a], none)
    deleteDeployment := fun _ => none
    execToPodThroughAPI := fun _ => ("", "", none)
    getpgtask := fun _ => .ok ⟨"task", "ns", .map [("target", "c1-a")], ""⟩
    updatepgtask := fun _ => none }

/-- A script in which the first fetch of a pod fails and every later call
succeeds. -/
def fetchErrorScript : Script :=
  { retryScript with
    getPod := fun i => if i = 0 then .error "timeout" else .ok podC1a
    updatePod := fun _ => none }

/-- Whether the event is a write of a pod. -/
def Event.isUpdatePod : Event → Bool
  | .updatePod _ _ => true
  | _ => false

/-- The message of a status report, when the event is the debug line
`updateFailoverStatus` opens with. -/
def statusReport : Event → Option String
  | .logf .debug format [_, _, message] =>
    if format = "updateFailoverStatus namespace=[%s] taskName=[%s] message=[%s]" then
      some message
    else none
  | _ => none

/-- The messages of the status reports `Failover` attempted, in order: one for
each call of `updateFailoverStatus`. -/
def statusReports (trace : List Event) : List String :=
  trace.filterMap statusReport

/-- Whether the event is a call on the task of a failover. -/
def Event.isTaskCall : Event → Bool
  | .getpgtask _ _ => true
  | .updatepgtask _ _ _ => true
  | _ => false

/-- The events of `Failover` up to the answer of `util.GetPod`. -/
def failoverStart (u : Util) (cl : String) (task : Pgtask) (ns : String) : List Event :=
  [.log .info ["strategy 1 Failover called on " ++ cl ++ " target is " ++
      task.labels.get u.LABEL_TARGET],
    .utilGetPod (task.labels.get u.LABEL_TARGET) ns]

/-- The events of `Failover` from the answer `pod` of `util.GetPod` up to the
delete of the deployment of the one primary pod `p`. -/
def failoverDelete (u : Util) (cl ns : String) (pod p : Pod) : List Event :=
  [.logf .debug "best pod to failover to is %s" [pod.name],
    .getPods (u.LABEL_SERVICE_NAME ++ "=" ++ cl) ns,
    .logf .debug "deleting deployment %s" [p.labels.get u.LABEL_DEPLOYMENT_NAME],
    .deleteDeployment (p.labels.get u.LABEL_DEPLOYMENT_NAME) ns]

/-- The events of the relabel step of `Failover` for the answer of the fetch of
the candidate and of the write of the pod: the step ends at the fetch when the
fetched pod has no label map. -/
def failoverRelabel (u : Util) (cl ns : String) (pod : Pod) :
    Except Error Pod → Option Error → List Event
  | .error e, _ =>
    [.getPod pod.name ns, .log .error [e],
      .log .error ["error in getting pod during failover relabel"]]
  | .ok upod, r =>
    if upod.labels = .nil then [.getPod pod.name ns]
    else
      match r with
      | some e =>
        [.getPod pod.name ns, .updatePod (upod.withLabel u.LABEL_SERVICE_NAME cl) ns,
          .log .error [e], .log .error ["error in updating pod during failover relabel"]]
      | none =>
        [.getPod pod.name ns, .updatePod (upod.withLabel u.LABEL_SERVICE_NAME cl) ns]

/-- How the relabel step of `Failover` ends, short of the last status report:
it returns the error of the fetch or of the write, goes on (`none`) after a
write that succeeded, and panics when the fetched pod has no label map. -/
def failoverRelabelResult : Except Error Pod → Option Error → Result (Option Error)
  | .error e, _ => .returned (some e)
  | .ok upod, r => if upod.labels = .nil then .panicked else .returned r

/-- The task as a status report with the message `msg` leaves it, when the
fetch of the task is answer `i` of the script. -/
def statusTask (sc : Script) (task : Pgtask) (msg : String) (i : Nat) : Pgtask :=
  match sc.getpgtask i with
  | .error _ => task
  | .ok fetched => { fetched with statusMessage := msg }

/-- The number of writes of the task in a status report whose fetch is answer
`i` of the script. -/
def statusWrites (sc : Script) (i : Nat) : Nat :=
  match sc.getpgtask i with
  | .error _ => 0
  | .ok _ => 1

/-- The events of a status report with the message `msg`, when the fetch of the
task is answer `i` of the script. -/
def statusEvents (sc : Script) (task : Pgtask) (ns msg : String) (i : Nat) : List Event :=
  [.logf .debug "updateFailoverStatus namespace=[%s] taskName=[%s] message=[%s]"
      [ns, task.name, msg],
    .getpgtask task.name task.ns] ++
  match sc.getpgtask i with
  | .error _ => []
  | .ok fetched => [.updatepgtask { fetched with statusMessage := msg } fetched.name fetched.ns]

/-- The events of `promote` for the pod `pod`, when the command is answer `i` of
the script. -/
def promoteEvents (sc : Script) (pod : Pod) (ns : String) (i : Nat) : List Event :=
  [.logf .debug "running Exec with namespace=[%s] podname=[%s] container name=[%s]"
      [ns, pod.name, pod.firstContainer.name],
    .execToPodThroughAPI ["/opt/cpm/bin/promote.sh"] pod.firstContainer.name pod.name ns none,
    .logf .debug "stdout=[%s] stderr=[%s]"
      [(sc.execToPodThroughAPI i).1, (sc.execToPodThroughAPI i).2.1]] ++
  match (sc.execToPodThroughAPI i).2.2 with
  | some err => [.log .error [err]]
  | none => []

/-- The events of `Failover` between the delete of the primary deployment and
the relabel step: the first status report, `promote`, the second status
report. -/
def failoverMiddle (u : Util) (sc : Script) (cl : String) (task : Pgtask) (ns : String)
    (pod : Pod) : List Event :=
  statusEvents sc task ns ("deleting primary deployment " ++ cl) 0 ++
    promoteEvents sc pod ns 0 ++
    statusEvents sc (statusTask sc task ("deleting primary deployment " ++ cl) 0) ns
      ("promoting pod " ++ pod.name ++ " target " ++ task.labels.get u.LABEL_TARGET) 1

/-- The events of the last status report of `Failover`. -/
def failoverEnd (u : Util) (sc : Script) (cl : String) (task : Pgtask) (ns : String)
    (pod : Pod) : List Event :=
  statusEvents sc
    (statusTask sc (statusTask sc task ("deleting primary deployment " ++ cl) 0)
      ("promoting pod " ++ pod.name ++ " target " ++ task.labels.get u.LABEL_TARGET) 1) ns
    ("re-labeling deployment...pod " ++ pod.name ++
      "was the failover target...failover completed") 2

/-- The replica `r1` of the cluster `c3`, the candidate of the failover. -/
def podR1 : Pod :=
  { name := "r1", ns := "ns", selfLink := "/api/v1/namespaces/ns/pods/r1",
    labels := .map [("role", "false"), ("cluster", "c3"), ("service-selector", "c3-replica"),
      ("workload-name", "r1")],
    firstContainer := ⟨"database"⟩, moreContainers := [],
    containerStatuses := [⟨"database", true⟩] }

/-- The primary of the cluster `c3`, owned by the workload `c3-primary`. -/
def podC3 : Pod :=
  { name := "c3-a", ns := "ns", selfLink := "/api/v1/namespaces/ns/pods/c3-a",
    labels := .map [("role", "true"), ("cluster", "c3"), ("service-selector", "c3"),
      ("workload-name", "c3-primary")],
    firstContainer := ⟨"database"⟩, moreContainers := [],
    containerStatuses := [⟨"database", false⟩] }

/-- The task of a failover of the cluster `c3` to the target `r1`. -/
def failoverTask : Pgtask :=
  { name := "c3-failover", ns := "ns", labels := .map [("target", "r1")], statusMessage := "" }

/-- A script of a failover in which every call succeeds and one pod carries the
selector of the primary. -/
def happyScript : Script :=
  { utilGetPod := fun _ => .ok podR1
    getPod := fun _ => .ok podR1
    updatePod := fun _ => none
    getPods := fun _ => ([podC3], none)
    deleteDeployment := fun _ => none
    execToPodThroughAPI := fun _ => ("promoted", "", none)
    getpgtask := fun _ => .ok failoverTask
    updatepgtask := fun _ => none }

/-- The script `happyScript` with no pod under the selector of the primary. -/
def noPrimaryScript : Script :=
  { happyScript with getPods := fun _ => ([], none) }

/-- The script `happyScript` with a promotion command that fails. -/
def promoteFailsScript : Script :=
  { happyScript with execToPodThroughAPI := fun _ => ("", "no such file", some "exit 1") }

/-- Modelled from the spec: the state of the orchestration platform, on which
the collaborators of the packages `kubeapi` and `util` act and which is not
among the sources: the instances, the workload units (namespace and name) and
the tasks it persists, and for each platform call to come whether it fails. -/
structure Kube where
  pods : List Pod
  deployments : List (String × String)
  tasks : List Pgtask
  faults : List Bool
deriving DecidableEq, Repr

/-- Modelled from the spec: whether the next platform call fails (a collaborator
may fail at any call), and the state with that fault used up. -/
def Kube.next (s : Kube) : Bool × Kube :=
  match s.faults with
  | [] => (false, s)
  | b :: rest => (b, { s with faults := rest })

/-- The list with the first element that satisfies `p` replaced by `new`. -/
def replaceFirst {γ : Type} (p : γ → Bool) (new : γ) : List γ → List γ
  | [] => []
  | a :: l => if p a then new :: l else a :: replaceFirst p new l

/-- Whether the pod is the one of that name in that namespace. -/
def Pod.isNamed (name ns : String) (p : Pod) : Bool :=
  p.name == name && p.ns == ns

/-- Whether the task is the one of that name in that namespace. -/
def Pgtask.isNamed (name ns : String) (t : Pgtask) : Bool :=
  t.name == name && t.ns == ns

/-- Modelled from the spec: whether an instance is selected by the label
selector `key=value` of `listInstances`: it has the label `key` with the value
`value`. -/
def Pod.matchesSelector (selector : String) (p : Pod) : Bool :=
  p.labels.entries.any fun e => e.1 ++ "=" ++ e.2 == selector

/-- Modelled from the spec: `getInstance(name, namespace)`, the instance of that
name or an error. -/
def Kube.getPod (name ns : String) (s : Kube) : Except Error Pod × Kube :=
  if s.next.1 then (.error "platform call failed", s.next.2)
  else
    match s.pods.find? (Pod.isNamed name ns) with
    | some p => (.ok p, s.next.2)
    | none => (.error "pod not found", s.next.2)

/-- Modelled from the spec: `updateInstance(instance, namespace)`, which
persists the instance in the place of the one of its name, or fails. -/
def Kube.updatePod (pod : Pod) (ns : String) (s : Kube) : Option Error × Kube :=
  if s.next.1 then (some "platform call failed", s.next.2)
  else if pod.ns = ns ∧ s.pods.any (Pod.isNamed pod.name ns) then
    (none, { s.next.2 with pods := replaceFirst (Pod.isNamed pod.name ns) pod s.pods })
  else (some "pod not found", s.next.2)

/-- Modelled from the spec: `listInstances(labelSelector, namespace)`, the
instances of the namespace the selector selects; none with the error when the
call fails. -/
def Kube.getPods (selector ns : String) (s : Kube) : (List Pod × Option Error) × Kube :=
  if s.next.1 then (([], some "platform call failed"), s.next.2)
  else ((s.pods.filter fun p => p.ns == ns && p.matchesSelector selector, none), s.next.2)

/-- Modelled from the spec: `deleteWorkload(name, namespace)`.  The workload
unit owns the instances whose label `workload-name` is its name; deleting it
removes it and them. -/
def Kube.deleteDeployment (u : Util) (name ns : String) (s : Kube) : Option Error × Kube :=
  if s.next.1 then (some "platform call failed", s.next.2)
  else if (ns, name) ∈ s.deployments then
    (none, { s.next.2 with
      deployments := s.deployments.filter fun d => d ≠ (ns, name)
      pods := s.pods.filter fun p =>
        !(p.ns == ns && p.labels.get u.LABEL_DEPLOYMENT_NAME == name) })
  else (some "deployment not found", s.next.2)

/-- Modelled from the spec: `execInCommand`, which changes nothing the platform
persists. -/
def Kube.execToPodThroughAPI (s : Kube) : (String × String × Option Error) × Kube :=
  if s.next.1 then (("", "", some "platform call failed"), s.next.2)
  else (("", "", none), s.next.2)

/-- Modelled from the spec: `getTask(name, namespace)`. -/
def Kube.getpgtask (name ns : String) (s : Kube) : Except Error Pgtask × Kube :=
  if s.next.1 then (.error "platform call failed", s.next.2)
  else
    match s.tasks.find? (Pgtask.isNamed name ns) with
    | some t => (.ok t, s.next.2)
    | none => (.error "task not found", s.next.2)

/-- Modelled from the spec: `updateTask(name, namespace)`. -/
def Kube.updatepgtask (task : Pgtask) (name ns : String) (s : Kube) : Option Error × Kube :=
  if s.next.1 then (some "platform call failed", s.next.2)
  else if s.tasks.any (Pgtask.isNamed name ns) then
    (none, { s.next.2 with tasks := replaceFirst (Pgtask.isNamed name ns) task s.tasks })
  else (some "task not found", s.next.2)

/-- Modelled from the spec: the platform of the collaborators over the state
`Kube`, with the label keys `u`.  `util.GetPod` resolves the candidate by name;
the three triggers are external and change nothing the platform persists. -/
def kube (u : Util) : Platform Kube where
  util := u
  utilGetPod := Kube.getPod
  getPod := Kube.getPod
  updatePod := Kube.updatePod
  getPods := Kube.getPods
  deleteDeployment := Kube.deleteDeployment u
  execToPodThroughAPI _ _ _ _ _ := Kube.execToPodThroughAPI
  getpgtask := Kube.getpgtask
  updatepgtask := Kube.updatepgtask
  autofailBase _ _ _ s := s
  applyPolicies _ s := s
  completeCreateClusterWorkflow _ s := s

/-- Whether the instance is in the namespace `ns` and carries the label
`service-name` with the value `cl`. -/
def carries (u : Util) (cl ns : String) (p : Pod) : Bool :=
  p.ns == ns && p.labels.lookup u.LABEL_SERVICE_NAME == some cl

/-- The invariant of the data model: at most one instance of the namespace
carries `service-name` equal to the bare name of the cluster `cl`. -/
def atMostOnePrimary (u : Util) (cl ns : String) (s : Kube) : Prop :=
  s.pods.countP (carries u cl ns) ≤ 1

/-- The invariant can be checked on a given state. -/
instance (u : Util) (cl ns : String) (s : Kube) : Decidable (atMostOnePrimary u cl ns s) :=
  inferInstanceAs (Decidable (_ ≤ 1))

/-- The state a piece of code leaves when run from the state `s`. -/
def stateAfter {σ α : Type} (x : Run σ α) (s : σ) : σ :=
  (x ⟨s, []⟩).2.state

/-- A second primary of the cluster `c1`, not yet labelled. -/
def podC1b : Pod :=
  { podC1a with name := "c1-b", selfLink := "/api/v1/namespaces/ns/pods/c1-b" }

/-- A state in which the cluster `c1` has its primary `c1-a`, selected by the
service of the primary, and a second pod `c1-b` with the role of a primary. -/
def twoPrimaries : Kube :=
  { pods := [podC1a.withLabel "service-selector" "c1", podC1b],
    deployments := [("ns", "c1-a"), ("ns", "c1-b")], tasks := [], faults := [] }

/-- The state of the cluster `c3` before its failover to `r1`. -/
def c3State : Kube :=
  { pods := [podC3, podR1], deployments := [("ns", "c3-primary"), ("ns", "r1")],
    tasks := [failoverTask], faults := [] }

/-- The piece of code `x`, run in a state that satisfies `pre`, returns a result
and a state that satisfy `post`, or panics in a state that satisfies
`crashed`. -/
def Ensures {σ α : Type} (pre : σ → Prop) (x : Run σ α) (post : α → σ → Prop)
    (crashed : σ → Prop) : Prop :=
  ∀ w : World σ, pre w.state →
    match (x w).1 with
    | .returned a => post a (x w).2.state
    | .panicked => crashed (x w).2.state

/-- The pod as the API serves it when it carries no labels: its label map is
`nil`. -/
def Pod.unlabelled (pod : Pod) : Pod :=
  { pod with labels := .nil }

/-- A script in which every call succeeds and every fetch of a pod answers
`c1-a` without labels. -/
def nilLabelsScript : Script :=
  { retryScript with
    getPod := fun _ => .ok podC1a.unlabelled
    updatePod := fun _ => none }

/-- A script in which the first two writes of a pod fail and the third fetch of
a pod fails; every other call succeeds. -/
def retryFetchErrorScript : Script :=
  { retryScript with
    getPod := fun i => if i < 2 then .ok podC1a else .error "timeout" }

/-- The script `happyScript` with a re-fetch that answers the candidate `r1`
without labels. -/
def nilRefetchScript : Script :=
  { happyScript with getPod := fun _ => .ok podR1.unlabelled }

/-- The script `promoteFailsScript` with a re-fetch that answers the candidate
`r1` without labels. -/
def promoteFailsNilScript : Script :=
  { promoteFailsScript with getPod := fun _ => .ok podR1.unlabelled }

/-- A second replica `r2` of the cluster `c3`, not yet labelled. -/
def podR2 : Pod :=
  { podR1 with
    name := "r2", selfLink := "/api/v1/namespaces/ns/pods/r2",
    labels := .map [("role", "false"), ("cluster", "c3"), ("workload-name", "r2")] }

/-- The state of the cluster `c3` with its primary, the replica `r1`, selected
by the service of the replicas, and the replica `r2` just added. -/
def c3Replicas : Kube :=
  { pods := [podC3, podR1, podR2],
    deployments := [("ns", "c3-primary"), ("ns", "r1"), ("ns", "r2")],
    tasks := [], faults := [] }

/-- The state of the cluster `c1` when its primary `c1-a` was just added and no
pod is labelled for a service yet. -/
def c1Fresh : Kube :=
  { pods := [podC1a], deployments := [("ns", "c1-a")], tasks := [], faults := [] }

/-! # Theorems -/

section Lemmas
variable {σ α β : Type}

theorem Run.pure_apply (a : α) (w : World σ) : (pure a : Run σ α) w = (.returned a, w) := rfl

theorem Run.bind_apply (x : Run σ α) (f : α → Run σ β) (w : World σ) :
    (x >>= f) w =
      match (x w).1 with
      | .returned a => f a (x w).2
      | .panicked => (.panicked, (x w).2) := rfl

theorem Run.bind_returned (x : Run σ α) (f : α → Run σ β) (w w2 : World σ) (a : α)
    (h : x w = (.returned a, w2)) : (x >>= f) w = f a w2 := by
  rw [Run.bind_apply, h]

theorem Run.bind_panicked (x : Run σ α) (f : α → Run σ β) (w w2 : World σ)
    (h : x w = (.panicked, w2)) : (x >>= f) w = (.panicked, w2) := by
  rw [Run.bind_apply, h]

theorem call_apply (e : Event) (f : σ → α × σ) (w : World σ) :
    call e f w = (.returned (f w.state).1, ⟨(f w.state).2, w.trace ++ [e]⟩) := rfl

theorem emit_apply (e : Event) (w : World σ) :
    (emit e : Run σ Unit) w = (.returned (), ⟨w.state, w.trace ++ [e]⟩) := rfl

theorem trigger_apply (e : Event) (f : σ → σ) (w : World σ) :
    trigger e f w = (.returned (), ⟨f w.state, w.trace ++ [e]⟩) := rfl

theorem crash_apply (w : World σ) : (crash : Run σ α) w = (.panicked, w) := rfl

theorem Pod.setLabel_of_labels (pod : Pod) (k v : String) (h : pod.labels ≠ .nil) :
    pod.setLabel k v = some (pod.withLabel k v) := by
  unfold Pod.setLabel Pod.withLabel
  cases hl : pod.labels with
  | nil => exact absurd hl h
  | map m => rfl

theorem Pod.setLabel_nil (pod : Pod) (k v : String) (h : pod.labels = .nil) :
    pod.setLabel k v = none := by
  unfold Pod.setLabel
  rw [h]
  rfl

theorem assignLabel_apply (pod : Pod) (k v : String) (w : World σ)
    (h : pod.labels ≠ .nil) :
    (assignLabel pod k v : Run σ Pod) w = (.returned (pod.withLabel k v), w) := by
  unfold assignLabel
  rw [Pod.setLabel_of_labels pod k v h]
  rfl

theorem assignLabel_nil (pod : Pod) (k v : String) (w : World σ)
    (h : pod.labels = .nil) :
    (assignLabel pod k v : Run σ Pod) w = (.panicked, w) := by
  unfold assignLabel
  rw [Pod.setLabel_nil pod k v h]
  rfl

theorem setEntry_lookup_self (m : List (String × String)) (k v : String) :
    (setEntry m k v).lookup k = some v := by
  induction m with
  | nil => simp [setEntry, List.lookup]
  | cons e m ih =>
    unfold setEntry
    by_cases h : e.1 = k
    · simp [h, List.lookup]
    · have h' : (k == e.1) = false := by
        rw [beq_eq_false_iff_ne]; exact fun h2 => h h2.symm
      simp only [h, if_false]
      rw [show e = (e.1, e.2) from rfl, List.lookup_cons, h']
      exact ih

theorem setEntry_lookup_other (m : List (String × String)) (k v k' : String) (hk : k' ≠ k) :
    (setEntry m k v).lookup k' = m.lookup k' := by
  induction m with
  | nil => 
    have h' : (k' == k) = false := by simpa using hk
    simp [setEntry, List.lookup, h']
  | cons e m ih =>
    unfold setEntry
    by_cases h : e.1 = k
    · have h' : (k' == k) = false := by simpa using hk
      have h'' : (k' == e.1) = false := by simpa [h] using hk
      simp only [h, if_true]
      rw [show e = (e.1, e.2) from rfl, List.lookup_cons, List.lookup_cons, h', h'']
    · simp only [h, if_false]
      rw [show e = (e.1, e.2) from rfl, List.lookup_cons, List.lookup_cons, ih]

theorem Pod.withLabel_lookup_self (pod : Pod) (k v : String) :
    (pod.withLabel k v).labels.lookup k = some v :=
  setEntry_lookup_self pod.labels.entries k v

theorem Pod.withLabel_lookup_other (pod : Pod) (k v k' : String) (hk : k' ≠ k) :
    (pod.withLabel k v).labels.lookup k' = pod.labels.lookup k' :=
  setEntry_lookup_other pod.labels.entries k v k' hk

theorem Pod.withLabel_get_self (pod : Pod) (k v : String) :
    (pod.withLabel k v).labels.get k = v := by
  simp [Labels.get, Pod.withLabel_lookup_self]

theorem Pod.withLabel_get_other (pod : Pod) (k v k' : String) (hk : k' ≠ k) :
    (pod.withLabel k v).labels.get k' = pod.labels.get k' := by
  simp [Labels.get, Pod.withLabel_lookup_other pod k v k' hk]

theorem calls_append (a b : List Event) : calls (a ++ b) = calls a ++ calls b := by
  simp [calls]

theorem autofailLoop_apply (P : Platform σ) (newpod : Pod) (l : List ContainerStatus)
    (w : World σ) :
    ∃ s, autofailLoop P newpod l w = (.returned (), ⟨s, w.trace ++
      (l.filter fun v => v.name = "database").map fun v =>
        Event.autofailBase v.ready (newpod.labels.get P.util.LABEL_PG_CLUSTER) newpod.ns⟩) := by
  induction l generalizing w with
  | nil => exact ⟨w.state, by simp [autofailLoop, Run.pure_apply]⟩
  | cons v rest ih =>
    by_cases h : v.name = "database"
    · obtain ⟨s, hs⟩ := ih ⟨P.autofailBase v.ready (newpod.labels.get P.util.LABEL_PG_CLUSTER)
        newpod.ns w.state, w.trace ++ [Event.autofailBase v.ready
          (newpod.labels.get P.util.LABEL_PG_CLUSTER) newpod.ns]⟩
      refine ⟨s, ?_⟩
      simp only [autofailLoop, h, if_true, Run.bind_apply, trigger_apply, hs]
      simp [h]
    · obtain ⟨s, hs⟩ := ih w
      refine ⟨s, ?_⟩
      simp only [autofailLoop, h, if_false, Run.bind_apply, Run.pure_apply, hs]
      simp [h]

theorem policyLoop_apply (P : Platform σ) (newpod : Pod) (l : List ContainerStatus)
    (w : World σ) :
    ∃ s, policyLoop P newpod l w = (.returned (), ⟨s, w.trace ++
      (l.filter fun v => v.name = "database" ∧ v.ready = true).flatMap fun _ =>
        [Event.logf .debug "%s went to Ready, apply policies..."
            [newpod.labels.get P.util.LABEL_PG_CLUSTER],
          Event.applyPolicies (newpod.labels.get P.util.LABEL_PG_CLUSTER),
          Event.completeCreateClusterWorkflow (newpod.labels.get P.util.LABEL_PG_CLUSTER)]⟩) := by
  induction l generalizing w with
  | nil => exact ⟨w.state, by simp [policyLoop, Run.pure_apply]⟩
  | cons v rest ih =>
    by_cases h : v.name = "database"
    · by_cases hr : v.ready = true
      · obtain ⟨s, hs⟩ := ih ⟨P.completeCreateClusterWorkflow
          (newpod.labels.get P.util.LABEL_PG_CLUSTER)
          (P.applyPolicies (newpod.labels.get P.util.LABEL_PG_CLUSTER) w.state),
          w.trace ++ [Event.logf .debug "%s went to Ready, apply policies..."
            [newpod.labels.get P.util.LABEL_PG_CLUSTER]] ++
          [Event.applyPolicies (newpod.labels.get P.util.LABEL_PG_CLUSTER)] ++
          [Event.completeCreateClusterWorkflow (newpod.labels.get P.util.LABEL_PG_CLUSTER)]⟩
        refine ⟨s, ?_⟩
        simp only [policyLoop, h, hr, if_true, Run.bind_apply, trigger_apply, emit_apply, hs]
        simp [h, hr]
      · obtain ⟨s, hs⟩ := ih w
        refine ⟨s, ?_⟩
        have hr2 : v.ready = false := by simpa using hr
        simp only [policyLoop, h, hr2, if_true, Run.bind_apply, Run.pure_apply, hs]
        simp [h, hr2, Run.bind_apply, Run.pure_apply, hs]
    · obtain ⟨s, hs⟩ := ih w
      refine ⟨s, ?_⟩
      simp only [policyLoop, h, if_false, Run.bind_apply, Run.pure_apply, hs]
      simp [h]

theorem checkReadyStatus_apply (P : Platform σ) (c : PodController) (oldpod newpod : Pod)
    (w : World σ) :
    ∃ s, checkReadyStatus P c oldpod newpod w =
      (.returned (), ⟨s, w.trace ++ autofailEvents P.util newpod ++ policyEvents P.util newpod⟩) := by
  unfold autofailEvents policyEvents
  by_cases h1 : newpod.labels.get P.util.LABEL_PRIMARY = "true"
  · by_cases h2 : newpod.labels.get P.util.LABEL_PG_CLUSTER ≠ "" ∧
        newpod.labels.get P.util.LABEL_AUTOFAIL = "true"
    · obtain ⟨s1, hs1⟩ := autofailLoop_apply P newpod newpod.containerStatuses
        ⟨w.state, w.trace ++ [Event.logf .info "an autofail pg-cluster %s!"
          [newpod.labels.get P.util.LABEL_PG_CLUSTER]]⟩
      obtain ⟨s2, hs2⟩ := policyLoop_apply P newpod newpod.containerStatuses
        ⟨s1, w.trace ++ [Event.logf .info "an autofail pg-cluster %s!"
          [newpod.labels.get P.util.LABEL_PG_CLUSTER]] ++
          (newpod.containerStatuses.filter fun v => v.name = "database").map fun v =>
            Event.autofailBase v.ready (newpod.labels.get P.util.LABEL_PG_CLUSTER) newpod.ns⟩
      refine ⟨s2, ?_⟩
      have h3 : newpod.labels.get P.util.LABEL_PRIMARY = "true" ∧
          newpod.labels.get P.util.LABEL_PG_CLUSTER ≠ "" ∧
          newpod.labels.get P.util.LABEL_AUTOFAIL = "true" := ⟨h1, h2⟩
      simp only [checkReadyStatus, if_pos h3, if_pos h1, Run.bind_apply, emit_apply, hs1, hs2]
      simp
    · obtain ⟨s2, hs2⟩ := policyLoop_apply P newpod newpod.containerStatuses w
      refine ⟨s2, ?_⟩
      have h3 : ¬ (newpod.labels.get P.util.LABEL_PRIMARY = "true" ∧
          newpod.labels.get P.util.LABEL_PG_CLUSTER ≠ "" ∧
          newpod.labels.get P.util.LABEL_AUTOFAIL = "true") := fun h => h2 h.2
      simp only [checkReadyStatus, if_neg h3, if_pos h1, Run.bind_apply, Run.pure_apply, hs2]
      simp
  · refine ⟨w.state, ?_⟩
    have h3 : ¬ (newpod.labels.get P.util.LABEL_PRIMARY = "true" ∧
        newpod.labels.get P.util.LABEL_PG_CLUSTER ≠ "" ∧
        newpod.labels.get P.util.LABEL_AUTOFAIL = "true") := fun h => h1 h.1
    simp only [checkReadyStatus, if_neg h3, if_neg h1, Run.bind_apply, Run.pure_apply]
    simp

theorem onUpdate_apply (P : Platform σ) (c : PodController) (oldpod newpod : Pod)
    (w : World σ) :
    ∃ s, onUpdate P c oldpod newpod w = (.returned (), ⟨s, w.trace ++
      (Event.logf .debug "[PodCONTROLLER] OnUpdate %s" [newpod.selfLink] ::
        autofailEvents P.util newpod ++ policyEvents P.util newpod)⟩) := by
  obtain ⟨s, hs⟩ := checkReadyStatus_apply P c oldpod newpod
    ⟨w.state, w.trace ++ [Event.logf .debug "[PodCONTROLLER] OnUpdate %s" [newpod.selfLink]]⟩
  refine ⟨s, ?_⟩
  simp only [onUpdate, Run.bind_apply, emit_apply, hs]
  simp

theorem filter_map_autofailBase (p : Event → Bool) (cl ns : String)
    (l : List ContainerStatus) (b : Bool) (hp : ∀ r, p (Event.autofailBase r cl ns) = b) :
    List.filter p (l.map fun v => Event.autofailBase v.ready cl ns) =
      if b = true then l.map fun v => Event.autofailBase v.ready cl ns else [] := by
  induction l with
  | nil => cases b <;> rfl
  | cons a l ih =>
    rw [List.map_cons, List.filter_cons, hp, ih]
    cases b <;> simp

theorem filter_flatMap_const (p : Event → Bool) (evs : List Event) (l : List ContainerStatus) :
    List.filter p (l.flatMap fun _ => evs) = l.flatMap fun _ => List.filter p evs := by
  induction l with
  | nil => rfl
  | cons a l ih => simp [List.flatMap_cons, List.filter_append, ih]

theorem autofailEvents_filter (u : Util) (newpod : Pod) :
    (autofailEvents u newpod).filter Event.isAutofailBase =
      if newpod.labels.get u.LABEL_PRIMARY = "true" ∧ newpod.labels.get u.LABEL_PG_CLUSTER ≠ "" ∧
          newpod.labels.get u.LABEL_AUTOFAIL = "true" then
        (newpod.containerStatuses.filter fun v => v.name = "database").map fun v =>
          Event.autofailBase v.ready (newpod.labels.get u.LABEL_PG_CLUSTER) newpod.ns
      else [] := by
  unfold autofailEvents
  split_ifs
  · rw [List.filter_cons, filter_map_autofailBase Event.isAutofailBase _ _ _ true (fun _ => rfl)]
    simp [Event.isAutofailBase]
  · rfl

theorem policyEvents_filter_autofail (u : Util) (newpod : Pod) :
    (policyEvents u newpod).filter Event.isAutofailBase = [] := by
  unfold policyEvents
  split_ifs
  · rw [filter_flatMap_const]
    simp [Event.isAutofailBase]
  · rfl

theorem autofailEvents_filter_policy (u : Util) (newpod : Pod) :
    (autofailEvents u newpod).filter Event.isPolicyCall = [] := by
  unfold autofailEvents
  split_ifs
  · rw [List.filter_cons, filter_map_autofailBase Event.isPolicyCall _ _ _ false (fun _ => rfl)]
    simp [Event.isPolicyCall]
  · rfl

theorem policyEvents_filter (u : Util) (newpod : Pod) :
    (policyEvents u newpod).filter Event.isPolicyCall =
      if newpod.labels.get u.LABEL_PRIMARY = "true" then
        (newpod.containerStatuses.filter fun v => v.name = "database" ∧ v.ready = true).flatMap
          fun _ =>
            [Event.applyPolicies (newpod.labels.get u.LABEL_PG_CLUSTER),
              Event.completeCreateClusterWorkflow (newpod.labels.get u.LABEL_PG_CLUSTER)]
      else [] := by
  unfold policyEvents
  split_ifs
  · rw [filter_flatMap_const]
    simp [Event.isPolicyCall, List.filter_cons]
  · rfl

/-- Claim C6.  For every changed event, on every platform and in every state,
the calls of `AutofailBase` that `checkReadyStatus` makes are, in order, one for
each container status of the new pod named `database`, with the readiness of
that status, the cluster label and the namespace of the new pod, when the new pod
has the role `true`, a cluster label that is not empty and autofail `true`; there
is none when one of the three tests fails, and a status of another name causes
none whatever its readiness. -/
theorem checkReadyStatus_autofail (P : Platform σ) (c : PodController) (oldpod newpod : Pod)
    (s : σ) :
    (outcome (checkReadyStatus P c oldpod newpod) s).2.filter Event.isAutofailBase =
      if newpod.labels.get P.util.LABEL_PRIMARY = "true" ∧
          newpod.labels.get P.util.LABEL_PG_CLUSTER ≠ "" ∧
          newpod.labels.get P.util.LABEL_AUTOFAIL = "true" then
        (newpod.containerStatuses.filter fun v => v.name = "database").map fun v =>
          Event.autofailBase v.ready (newpod.labels.get P.util.LABEL_PG_CLUSTER) newpod.ns
      else [] := by
  obtain ⟨s2, hs⟩ := checkReadyStatus_apply P c oldpod newpod ⟨s, []⟩
  simp only [outcome, hs, List.nil_append, List.filter_append, autofailEvents_filter,
    policyEvents_filter_autofail, List.append_nil]

/-- Claim C7.  For every changed event: the trace of `onUpdate` is the same for
every previous pod, controller, state and platform with the same label keys (it
depends on the new pod only); the calls of `ApplyPolicies` and
`CompleteCreateClusterWorkflow` are, for a new pod with the role `true`, that
pair with the cluster label once for each container status named `database`
that is ready, and none otherwise; and two events in a row with the same new
pod give the trace of one twice (nothing is deduplicated). -/
theorem onUpdate_policy (P : Platform σ) (c : PodController) (oldpod newpod : Pod) (s : σ) :
    (∀ (τ : Type) (Q : Platform τ) (c2 : PodController) (oldpod2 : Pod) (s2 : τ),
      Q.util = P.util →
        (outcome (onUpdate Q c2 oldpod2 newpod) s2).2 =
          (outcome (onUpdate P c oldpod newpod) s).2) ∧
    (outcome (onUpdate P c oldpod newpod) s).2.filter Event.isPolicyCall =
      (if newpod.labels.get P.util.LABEL_PRIMARY = "true" then
        (newpod.containerStatuses.filter fun v => v.name = "database" ∧ v.ready = true).flatMap
          fun _ =>
            [Event.applyPolicies (newpod.labels.get P.util.LABEL_PG_CLUSTER),
              Event.completeCreateClusterWorkflow (newpod.labels.get P.util.LABEL_PG_CLUSTER)]
      else []) ∧
    (∀ oldpod2 : Pod,
      (outcome (onUpdate P c oldpod newpod >>= fun _ => onUpdate P c oldpod2 newpod) s).2 =
        (outcome (onUpdate P c oldpod newpod) s).2 ++
          (outcome (onUpdate P c oldpod newpod) s).2) := by
  obtain ⟨s1, hs1⟩ := onUpdate_apply P c oldpod newpod ⟨s, []⟩
  refine ⟨?_, ?_, ?_⟩
  · intro τ Q c2 oldpod2 s2 hQ
    obtain ⟨s3, hs3⟩ := onUpdate_apply Q c2 oldpod2 newpod ⟨s2, []⟩
    simp only [outcome, hs1, hs3, hQ]
  · simp only [outcome, hs1, List.nil_append, List.filter_append, List.filter_cons,
      autofailEvents_filter_policy, policyEvents_filter, List.cons_append]
    simp [Event.isPolicyCall]
  · intro oldpod2
    obtain ⟨s3, hs3⟩ := onUpdate_apply P c oldpod2 newpod
      ⟨s1, (outcome (onUpdate P c oldpod newpod) s).2⟩
    simp only [outcome, Run.bind_apply, hs1, List.nil_append] at hs3 ⊢
    simp only [hs3]

theorem relabelled_apply (P : Platform σ) (newpod pod : Pod) (w : World σ)
    (hrole : newpod.labels.get P.util.LABEL_PRIMARY = "true" ∨
      newpod.labels.get P.util.LABEL_PRIMARY = "false")
    (hl : pod.labels ≠ .nil) :
    relabelled P newpod pod w =
      (.returned (pod.withLabel P.util.LABEL_SERVICE_NAME (serviceName P.util newpod)),
        ⟨w.state, w.trace ++ [addedLine P.util newpod]⟩) := by
  by_cases h : newpod.labels.get P.util.LABEL_PRIMARY = "true"
  · simp only [relabelled, serviceName, addedLine, if_pos h, Run.bind_apply, emit_apply,
      assignLabel_apply _ _ _ _ hl]
  · have h2 : newpod.labels.get P.util.LABEL_PRIMARY = "false" := hrole.resolve_left h
    simp only [relabelled, serviceName, addedLine, if_neg h, if_pos h2, Run.bind_apply,
      emit_apply, assignLabel_apply _ _ _ _ hl]

theorem relabelled_nil (P : Platform σ) (newpod pod : Pod) (w : World σ)
    (hrole : newpod.labels.get P.util.LABEL_PRIMARY = "true" ∨
      newpod.labels.get P.util.LABEL_PRIMARY = "false")
    (hl : pod.labels = .nil) :
    relabelled P newpod pod w =
      (.panicked, ⟨w.state, w.trace ++ [addedLine P.util newpod]⟩) := by
  by_cases h : newpod.labels.get P.util.LABEL_PRIMARY = "true"
  · simp only [relabelled, addedLine, if_pos h, Run.bind_apply, emit_apply,
      assignLabel_nil _ _ _ _ hl]
  · have h2 : newpod.labels.get P.util.LABEL_PRIMARY = "false" := hrole.resolve_left h
    simp only [relabelled, addedLine, if_neg h, if_pos h2, Run.bind_apply,
      emit_apply, assignLabel_nil _ _ _ _ hl]

section Scripted
variable (u : Util) (sc : Script) (c : PodController) (newpod : Pod)

theorem scripted_util : (scripted u sc).util = u := rfl
theorem scripted_utilGetPod (a b : String) (k : Cursor) :
    (scripted u sc).utilGetPod a b k =
      (sc.utilGetPod k.utilGetPod, { k with utilGetPod := k.utilGetPod + 1 }) := rfl
theorem scripted_getPod (a b : String) (k : Cursor) :
    (scripted u sc).getPod a b k = (sc.getPod k.getPod, { k with getPod := k.getPod + 1 }) := rfl
theorem scripted_updatePod (a : Pod) (b : String) (k : Cursor) :
    (scripted u sc).updatePod a b k =
      (sc.updatePod k.updatePod, { k with updatePod := k.updatePod + 1 }) := rfl
theorem scripted_getPods (a b : String) (k : Cursor) :
    (scripted u sc).getPods a b k = (sc.getPods k.getPods, { k with getPods := k.getPods + 1 }) :=
  rfl
theorem scripted_deleteDeployment (a b : String) (k : Cursor) :
    (scripted u sc).deleteDeployment a b k =
      (sc.deleteDeployment k.deleteDeployment,
        { k with deleteDeployment := k.deleteDeployment + 1 }) := rfl
theorem scripted_execToPodThroughAPI (a : List String) (b d e : String) (i : Option String)
    (k : Cursor) :
    (scripted u sc).execToPodThroughAPI a b d e i k =
      (sc.execToPodThroughAPI k.execToPodThroughAPI,
        { k with execToPodThroughAPI := k.execToPodThroughAPI + 1 }) := rfl
theorem scripted_getpgtask (a b : String) (k : Cursor) :
    (scripted u sc).getpgtask a b k =
      (sc.getpgtask k.getpgtask, { k with getpgtask := k.getpgtask + 1 }) := rfl
theorem scripted_updatepgtask (t : Pgtask) (a b : String) (k : Cursor) :
    (scripted u sc).updatepgtask t a b k =
      (sc.updatepgtask k.updatepgtask, { k with updatepgtask := k.updatepgtask + 1 }) := rfl

theorem loop_idle (n : Nat) (w : World Cursor)
    (h1 : newpod.labels.get u.LABEL_PRIMARY ≠ "true")
    (h2 : newpod.labels.get u.LABEL_PRIMARY ≠ "false") :
    checkPostgresPodsLoop (scripted u sc) c newpod n w = (.returned (), w) := by
  induction n with
  | zero => rfl
  | succ n ih =>
    have h : ¬ (newpod.labels.get (scripted u sc).util.LABEL_PRIMARY = "true" ∨
        newpod.labels.get (scripted u sc).util.LABEL_PRIMARY = "false") := by
      rintro (h | h)
      · exact h1 h
      · exact h2 h
    rw [checkPostgresPodsLoop, if_neg h, ih]

theorem loop_fetch_error (n : Nat) (k : Cursor) (tr : List Event) (e : Error)
    (hrole : newpod.labels.get u.LABEL_PRIMARY = "true" ∨
      newpod.labels.get u.LABEL_PRIMARY = "false")
    (hf : sc.getPod k.getPod = .error e) :
    checkPostgresPodsLoop (scripted u sc) c newpod (n + 1) ⟨k, tr⟩ =
      (.returned (), ⟨{ k with getPod := k.getPod + 1 },
        tr ++ [.getPod newpod.name c.ns, .log .error [e],
          .log .error [" could not get pod %s", newpod.name]]⟩) := by
  have h : newpod.labels.get (scripted u sc).util.LABEL_PRIMARY = "true" ∨
      newpod.labels.get (scripted u sc).util.LABEL_PRIMARY = "false" := hrole
  rw [checkPostgresPodsLoop, if_pos h]
  simp only [Run.bind_apply, call_apply, scripted_getPod, hf, emit_apply]
  simp

theorem loop_write_ok (n : Nat) (k : Cursor) (tr : List Event) (fetched : Pod)
    (hrole : newpod.labels.get u.LABEL_PRIMARY = "true" ∨
      newpod.labels.get u.LABEL_PRIMARY = "false")
    (hf : sc.getPod k.getPod = .ok fetched) (hl : fetched.labels ≠ .nil)
    (hw : sc.updatePod k.updatePod = none) :
    checkPostgresPodsLoop (scripted u sc) c newpod (n + 1) ⟨k, tr⟩ =
      (.returned (), ⟨{ k with getPod := k.getPod + 1, updatePod := k.updatePod + 1 },
        tr ++ attempt u c newpod fetched⟩) := by
  have h : newpod.labels.get (scripted u sc).util.LABEL_PRIMARY = "true" ∨
      newpod.labels.get (scripted u sc).util.LABEL_PRIMARY = "false" := hrole
  rw [checkPostgresPodsLoop, if_pos h]
  simp only [Run.bind_apply, call_apply, scripted_getPod, hf,
    relabelled_apply (scripted u sc) newpod _ _ h hl, scripted_updatePod, hw, Run.pure_apply,
    attempt, scripted_util]
  simp

theorem loop_write_error (n : Nat) (k : Cursor) (tr : List Event) (fetched : Pod) (e : Error)
    (hrole : newpod.labels.get u.LABEL_PRIMARY = "true" ∨
      newpod.labels.get u.LABEL_PRIMARY = "false")
    (hf : sc.getPod k.getPod = .ok fetched) (hl : fetched.labels ≠ .nil)
    (hw : sc.updatePod k.updatePod = some e) :
    checkPostgresPodsLoop (scripted u sc) c newpod (n + 1) ⟨k, tr⟩ =
      checkPostgresPodsLoop (scripted u sc) c newpod n
        ⟨{ k with getPod := k.getPod + 1, updatePod := k.updatePod + 1 },
          tr ++ (attempt u c newpod fetched ++ retryLines u newpod fetched e)⟩ := by
  have h : newpod.labels.get (scripted u sc).util.LABEL_PRIMARY = "true" ∨
      newpod.labels.get (scripted u sc).util.LABEL_PRIMARY = "false" := hrole
  rw [checkPostgresPodsLoop, if_pos h]
  simp only [Run.bind_apply, call_apply, scripted_getPod, hf,
    relabelled_apply (scripted u sc) newpod _ _ h hl, scripted_updatePod, hw, emit_apply,
    attempt, retryLines, scripted_util]
  simp [Pod.withLabel]

theorem loop_nil_labels (n : Nat) (k : Cursor) (tr : List Event) (fetched : Pod)
    (hrole : newpod.labels.get u.LABEL_PRIMARY = "true" ∨
      newpod.labels.get u.LABEL_PRIMARY = "false")
    (hf : sc.getPod k.getPod = .ok fetched) (hl : fetched.labels = .nil) :
    checkPostgresPodsLoop (scripted u sc) c newpod (n + 1) ⟨k, tr⟩ =
      (.panicked, ⟨{ k with getPod := k.getPod + 1 },
        tr ++ [.getPod newpod.name c.ns, addedLine u newpod]⟩) := by
  have h : newpod.labels.get (scripted u sc).util.LABEL_PRIMARY = "true" ∨
      newpod.labels.get (scripted u sc).util.LABEL_PRIMARY = "false" := hrole
  rw [checkPostgresPodsLoop, if_pos h]
  simp only [Run.bind_apply, call_apply, scripted_getPod, hf,
    relabelled_nil (scripted u sc) newpod _ _ h hl, scripted_util]
  simp

theorem loop_failed_attempts (f : Nat → Pod) (e : Nat → Error) (m n : Nat) (k : Cursor)
    (tr : List Event)
    (hrole : newpod.labels.get u.LABEL_PRIMARY = "true" ∨
      newpod.labels.get u.LABEL_PRIMARY = "false")
    (hf : ∀ t < m, sc.getPod (k.getPod + t) = .ok (f t))
    (hl : ∀ t < m, (f t).labels ≠ .nil)
    (he : ∀ t < m, sc.updatePod (k.updatePod + t) = some (e t)) :
    checkPostgresPodsLoop (scripted u sc) c newpod (m + n) ⟨k, tr⟩ =
      checkPostgresPodsLoop (scripted u sc) c newpod n
        ⟨{ k with getPod := k.getPod + m, updatePod := k.updatePod + m },
          tr ++ (List.range m).flatMap fun t =>
            attempt u c newpod (f t) ++ retryLines u newpod (f t) (e t)⟩ := by
  induction m generalizing n with
  | zero => simp
  | succ m ih =>
    have h1 := ih (n + 1) (fun t ht => hf t (Nat.lt_succ_of_lt ht))
      (fun t ht => hl t (Nat.lt_succ_of_lt ht))
      (fun t ht => he t (Nat.lt_succ_of_lt ht))
    rw [show m + 1 + n = m + (n + 1) by omega, h1,
      loop_write_error u sc c newpod n _ _ (f m) (e m) hrole (hf m (Nat.lt_succ_self m))
        (hl m (Nat.lt_succ_self m)) (he m (Nat.lt_succ_self m))]
    simp [List.range_succ, List.flatMap_append, Nat.add_assoc]

theorem loop_trace_extends (n : Nat) (k : Cursor) (tr : List Event) :
    ∃ rest, (checkPostgresPodsLoop (scripted u sc) c newpod n ⟨k, tr⟩).2.trace = tr ++ rest := by
  induction n generalizing k tr with
  | zero => exact ⟨[], by simp [checkPostgresPodsLoop, Run.pure_apply]⟩
  | succ n ih =>
    by_cases hrole : newpod.labels.get u.LABEL_PRIMARY = "true" ∨
        newpod.labels.get u.LABEL_PRIMARY = "false"
    · cases hf : sc.getPod k.getPod with
      | error e => exact ⟨_, by rw [loop_fetch_error u sc c newpod n k tr e hrole hf]⟩
      | ok fetched =>
        by_cases hl : fetched.labels = .nil
        · exact ⟨_, by rw [loop_nil_labels u sc c newpod n k tr fetched hrole hf hl]⟩
        · cases hw : sc.updatePod k.updatePod with
          | none => exact ⟨_, by rw [loop_write_ok u sc c newpod n k tr fetched hrole hf hl hw]⟩
          | some e =>
            rw [loop_write_error u sc c newpod n k tr fetched e hrole hf hl hw]
            obtain ⟨rest, h⟩ := ih { k with getPod := k.getPod + 1, updatePod := k.updatePod + 1 }
              (tr ++ (attempt u c newpod fetched ++ retryLines u newpod fetched e))
            exact ⟨_, by rw [h, List.append_assoc]⟩
    · have h1 : newpod.labels.get u.LABEL_PRIMARY ≠ "true" := fun h => hrole (Or.inl h)
      have h2 : newpod.labels.get u.LABEL_PRIMARY ≠ "false" := fun h => hrole (Or.inr h)
      exact ⟨[], by rw [loop_idle u sc c newpod _ _ h1 h2]; simp⟩

theorem loop_first_call (n : Nat) (k : Cursor) (tr : List Event)
    (hrole : newpod.labels.get u.LABEL_PRIMARY = "true" ∨
      newpod.labels.get u.LABEL_PRIMARY = "false") :
    ∃ rest, (checkPostgresPodsLoop (scripted u sc) c newpod (n + 1) ⟨k, tr⟩).2.trace =
      tr ++ Event.getPod newpod.name c.ns :: rest := by
  cases hf : sc.getPod k.getPod with
  | error e => exact ⟨_, by rw [loop_fetch_error u sc c newpod n k tr e hrole hf]⟩
  | ok fetched =>
    by_cases hl : fetched.labels = .nil
    · exact ⟨_, by rw [loop_nil_labels u sc c newpod n k tr fetched hrole hf hl]⟩
    · cases hw : sc.updatePod k.updatePod with
      | none =>
        exact ⟨_, by rw [loop_write_ok u sc c newpod n k tr fetched hrole hf hl hw]; rfl⟩
      | some e =>
        rw [loop_write_error u sc c newpod n k tr fetched e hrole hf hl hw]
        obtain ⟨rest, h⟩ := loop_trace_extends u sc c newpod n
          { k with getPod := k.getPod + 1, updatePod := k.updatePod + 1 }
          (tr ++ (attempt u c newpod fetched ++ retryLines u newpod fetched e))
        exact ⟨_, by rw [h, List.append_assoc]; rfl⟩

/-- The error a failed write answered with. -/
theorem updatePod_failed (t : Nat) (h : sc.updatePod t ≠ none) :
    sc.updatePod t = some ((sc.updatePod t).getD "") := by
  cases h2 : sc.updatePod t with
  | none => exact absurd h2 h
  | some e => rfl

theorem checkPostgresPods_written (f : Nat → Pod) (e : Nat → Error) (m : Nat) (hm : m < 8)
    (hrole : newpod.labels.get u.LABEL_PRIMARY = "true" ∨
      newpod.labels.get u.LABEL_PRIMARY = "false")
    (hf : ∀ t ≤ m, sc.getPod t = .ok (f t))
    (hl : ∀ t ≤ m, (f t).labels ≠ .nil)
    (he : ∀ t < m, sc.updatePod t = some (e t)) (hw : sc.updatePod m = none) :
    outcome (checkPostgresPods (scripted u sc) c newpod) Cursor.start =
      (.returned (), ((List.range m).flatMap fun t =>
          attempt u c newpod (f t) ++ retryLines u newpod (f t) (e t)) ++
        attempt u c newpod (f m)) := by
  obtain ⟨n, hn⟩ : ∃ n, 8 = m + (n + 1) := ⟨7 - m, by omega⟩
  have h1 := loop_failed_attempts u sc c newpod f e m (n + 1) Cursor.start []
    hrole (fun t ht => by simpa [Cursor.start] using hf t (Nat.le_of_lt ht))
    (fun t ht => hl t (Nat.le_of_lt ht))
    (fun t ht => by simpa [Cursor.start] using he t ht)
  unfold outcome checkPostgresPods
  rw [hn, h1, loop_write_ok u sc c newpod n _ _ (f m) hrole
    (by simpa [Cursor.start] using hf m (Nat.le_refl m)) (hl m (Nat.le_refl m))
    (by simpa [Cursor.start] using hw)]
  simp

theorem checkPostgresPods_exhausted (f : Nat → Pod) (e : Nat → Error)
    (hrole : newpod.labels.get u.LABEL_PRIMARY = "true" ∨
      newpod.labels.get u.LABEL_PRIMARY = "false")
    (hf : ∀ t < 8, sc.getPod t = .ok (f t))
    (hl : ∀ t < 8, (f t).labels ≠ .nil)
    (he : ∀ t < 8, sc.updatePod t = some (e t)) :
    outcome (checkPostgresPods (scripted u sc) c newpod) Cursor.start =
      (.returned (), (List.range 8).flatMap fun t =>
          attempt u c newpod (f t) ++ retryLines u newpod (f t) (e t)) := by
  have h1 := loop_failed_attempts u sc c newpod f e 8 0 Cursor.start []
    hrole (fun t ht => by simpa [Cursor.start] using hf t ht) hl
    (fun t ht => by simpa [Cursor.start] using he t ht)
  unfold outcome checkPostgresPods
  rw [show (8 : Nat) = 8 + 0 from rfl, h1]
  simp [checkPostgresPodsLoop, Run.pure_apply]

theorem checkPostgresPods_fetch_failed (f : Nat → Pod) (e : Nat → Error) (m : Nat) (hm : m < 8)
    (err : Error)
    (hrole : newpod.labels.get u.LABEL_PRIMARY = "true" ∨
      newpod.labels.get u.LABEL_PRIMARY = "false")
    (hf : ∀ t < m, sc.getPod t = .ok (f t))
    (hl : ∀ t < m, (f t).labels ≠ .nil)
    (he : ∀ t < m, sc.updatePod t = some (e t)) (hx : sc.getPod m = .error err) :
    outcome (checkPostgresPods (scripted u sc) c newpod) Cursor.start =
      (.returned (), ((List.range m).flatMap fun t =>
          attempt u c newpod (f t) ++ retryLines u newpod (f t) (e t)) ++
        [.getPod newpod.name c.ns, .log .error [err],
          .log .error [" could not get pod %s", newpod.name]]) := by
  obtain ⟨n, hn⟩ : ∃ n, 8 = m + (n + 1) := ⟨7 - m, by omega⟩
  have h1 := loop_failed_attempts u sc c newpod f e m (n + 1) Cursor.start []
    hrole (fun t ht => by simpa [Cursor.start] using hf t ht) hl
    (fun t ht => by simpa [Cursor.start] using he t ht)
  unfold outcome checkPostgresPods
  rw [hn, h1, loop_fetch_error u sc c newpod n _ _ err hrole
    (by simpa [Cursor.start] using hx)]
  simp

theorem checkPostgresPods_crashed (f : Nat → Pod) (e : Nat → Error) (m : Nat) (hm : m < 8)
    (hrole : newpod.labels.get u.LABEL_PRIMARY = "true" ∨
      newpod.labels.get u.LABEL_PRIMARY = "false")
    (hf : ∀ t ≤ m, sc.getPod t = .ok (f t))
    (hl : ∀ t < m, (f t).labels ≠ .nil)
    (he : ∀ t < m, sc.updatePod t = some (e t)) (hx : (f m).labels = .nil) :
    outcome (checkPostgresPods (scripted u sc) c newpod) Cursor.start =
      (.panicked, ((List.range m).flatMap fun t =>
          attempt u c newpod (f t) ++ retryLines u newpod (f t) (e t)) ++
        [.getPod newpod.name c.ns, addedLine u newpod]) := by
  obtain ⟨n, hn⟩ : ∃ n, 8 = m + (n + 1) := ⟨7 - m, by omega⟩
  have h1 := loop_failed_attempts u sc c newpod f e m (n + 1) Cursor.start []
    hrole (fun t ht => by simpa [Cursor.start] using hf t (Nat.le_of_lt ht)) hl
    (fun t ht => by simpa [Cursor.start] using he t ht)
  unfold outcome checkPostgresPods
  rw [hn, h1, loop_nil_labels u sc c newpod n _ _ (f m) hrole
    (by simpa [Cursor.start] using hf m (Nat.le_refl m)) hx]
  simp

theorem calls_flatMap_attempts (f : Nat → Pod) (e : Nat → Error) (l : List Nat) :
    calls (l.flatMap fun t => attempt u c newpod (f t) ++ retryLines u newpod (f t) (e t)) =
      l.flatMap fun t => [Event.getPod newpod.name c.ns,
        Event.updatePod ((f t).withLabel u.LABEL_SERVICE_NAME (serviceName u newpod)) c.ns] := by
  induction l with
  | nil => rfl
  | cons a l ih =>
    rw [List.flatMap_cons, List.flatMap_cons, calls_append, ih]
    congr 1
    unfold attempt retryLines addedLine calls
    split_ifs <;> simp [List.filter_cons, Event.isCall]

theorem calls_attempt (fetched : Pod) :
    calls (attempt u c newpod fetched) = [Event.getPod newpod.name c.ns,
      Event.updatePod (fetched.withLabel u.LABEL_SERVICE_NAME (serviceName u newpod)) c.ns] := by
  unfold attempt addedLine calls
  split_ifs <;> simp [List.filter_cons, Event.isCall]

theorem checkPostgresPods_idle {τ : Type} (Q : Platform τ) (n : Nat) (w : World τ)
    (h1 : newpod.labels.get Q.util.LABEL_PRIMARY ≠ "true")
    (h2 : newpod.labels.get Q.util.LABEL_PRIMARY ≠ "false") :
    checkPostgresPodsLoop Q c newpod n w = (.returned (), w) := by
  induction n with
  | zero => rfl
  | succ n ih =>
    have h : ¬ (newpod.labels.get Q.util.LABEL_PRIMARY = "true" ∨
        newpod.labels.get Q.util.LABEL_PRIMARY = "false") := by
      rintro (h | h)
      · exact h1 h
      · exact h2 h
    rw [checkPostgresPodsLoop, if_neg h, ih]

end Scripted

/-- Claim C1.  Role labeling on the platform that answers from a script.  When
the write of attempt `m + 1` succeeds (the fetches up to it succeeded and answered
pods that have a label map, the writes before it failed), `checkPostgresPods`
returns and its calls are, attempt by attempt, the fetch of the added pod and the
write of the pod that fetch answered with `service-name` set to the cluster label
of the added pod for the role `true`, and to the cluster label followed by
`-replica` for the role `false`.  On a fetched pod that has a label map the
statement that sets the label does not panic, and it changes no other label and
no other field of the pod.  For every other role, absent included,
`checkPostgresPods` does nothing at all, on every platform. -/
theorem checkPostgresPods_service_name (u : Util) (sc : Script) (c : PodController)
    (newpod : Pod) :
    (∀ (m : Nat) (f : Nat → Pod), m < 8 → (∀ t ≤ m, sc.getPod t = .ok (f t)) →
      (∀ t ≤ m, (f t).labels ≠ .nil) →
      (∀ t < m, sc.updatePod t ≠ none) → sc.updatePod m = none →
        (outcome (checkPostgresPods (scripted u sc) c newpod) Cursor.start).1 = .returned () ∧
        (newpod.labels.get u.LABEL_PRIMARY = "true" →
          calls (outcome (checkPostgresPods (scripted u sc) c newpod) Cursor.start).2 =
            (List.range (m + 1)).flatMap fun t =>
              [Event.getPod newpod.name c.ns,
                Event.updatePod ((f t).withLabel u.LABEL_SERVICE_NAME
                  (newpod.labels.get u.LABEL_PG_CLUSTER)) c.ns]) ∧
        (newpod.labels.get u.LABEL_PRIMARY = "false" →
          calls (outcome (checkPostgresPods (scripted u sc) c newpod) Cursor.start).2 =
            (List.range (m + 1)).flatMap fun t =>
              [Event.getPod newpod.name c.ns,
                Event.updatePod ((f t).withLabel u.LABEL_SERVICE_NAME
                  (newpod.labels.get u.LABEL_PG_CLUSTER ++ "-replica")) c.ns])) ∧
    (∀ (fetched : Pod) (v : String), fetched.labels ≠ .nil →
      fetched.setLabel u.LABEL_SERVICE_NAME v =
        some (fetched.withLabel u.LABEL_SERVICE_NAME v) ∧
      (fetched.withLabel u.LABEL_SERVICE_NAME v).labels.get u.LABEL_SERVICE_NAME = v ∧
      (∀ k, k ≠ u.LABEL_SERVICE_NAME →
        (fetched.withLabel u.LABEL_SERVICE_NAME v).labels.lookup k = fetched.labels.lookup k) ∧
      fetched.withLabel u.LABEL_SERVICE_NAME v =
        { fetched with labels := (fetched.withLabel u.LABEL_SERVICE_NAME v).labels }) ∧
    (newpod.labels.get u.LABEL_PRIMARY ≠ "true" → newpod.labels.get u.LABEL_PRIMARY ≠ "false" →
      ∀ (τ : Type) (Q : Platform τ) (s : τ), Q.util = u →
        outcome (checkPostgresPods Q c newpod) s = (.returned (), [])) := by
  refine ⟨?_, ?_, ?_⟩
  · intro m f hm hf hl he hw
    have hrun := fun hrole => checkPostgresPods_written u sc c newpod f
      (fun t => (sc.updatePod t).getD "") m hm hrole hf hl
      (fun t ht => updatePod_failed sc t (he t ht)) hw
    refine ⟨?_, ?_, ?_⟩
    · by_cases hrole : newpod.labels.get u.LABEL_PRIMARY = "true" ∨
          newpod.labels.get u.LABEL_PRIMARY = "false"
      · rw [hrun hrole]
      · simp only [outcome, checkPostgresPods,
          checkPostgresPods_idle c newpod (scripted u sc) 8 _ (fun h => hrole (Or.inl h))
            (fun h => hrole (Or.inr h))]
    · intro h
      have hs : serviceName u newpod = newpod.labels.get u.LABEL_PG_CLUSTER := by
        simp [serviceName, h]
      rw [hrun (Or.inl h), calls_append, calls_flatMap_attempts, calls_attempt, hs,
        List.range_succ, List.flatMap_append]
      simp
    · intro h
      have h1 : newpod.labels.get u.LABEL_PRIMARY ≠ "true" := by rw [h]; decide
      have hs : serviceName u newpod = newpod.labels.get u.LABEL_PG_CLUSTER ++ "-replica" := by
        simp [serviceName, h1]
      rw [hrun (Or.inr h), calls_append, calls_flatMap_attempts, calls_attempt, hs,
        List.range_succ, List.flatMap_append]
      simp
  · intro fetched v hl
    exact ⟨Pod.setLabel_of_labels _ _ _ hl, Pod.withLabel_get_self _ _ _,
      fun k hk => Pod.withLabel_lookup_other _ _ _ _ hk, rfl⟩
  · intro h1 h2 τ Q s hQ
    subst hQ
    simp only [outcome, checkPostgresPods, checkPostgresPods_idle c newpod Q 8 _ h1 h2]

/-- Witness of C1: the primary `c1-a`, written at the third attempt. -/
theorem checkPostgresPods_service_name_witness :
    calls (outcome (checkPostgresPods (scripted specKeys retryScript) ⟨"ns"⟩ podC1a)
        Cursor.start).2 =
      (List.range 3).flatMap fun _ =>
        [Event.getPod "c1-a" "ns",
          Event.updatePod (podC1a.withLabel "service-selector" "c1") "ns"] :=
  ((checkPostgresPods_service_name specKeys retryScript ⟨"ns"⟩ podC1a).1 2 (fun _ => podC1a)
    (by decide) (fun _ _ => rfl) (fun _ _ => (by decide : podC1a.labels ≠ .nil))
    (fun t ht => by simp [retryScript, ht]) rfl).2.1 (by decide)

theorem filter_isUpdatePod_calls (tr : List Event) :
    (calls tr).filter Event.isUpdatePod = tr.filter Event.isUpdatePod := by
  unfold calls
  rw [List.filter_filter]
  congr 1
  funext e
  cases e <;> rfl

theorem length_filter_isUpdatePod_pairs (g : Nat → Event) (h : Nat → Pod) (ns : String)
    (hg : ∀ t, (g t).isUpdatePod = false) (l : List Nat) :
    ((l.flatMap fun t => [g t, Event.updatePod (h t) ns]).filter Event.isUpdatePod).length =
      l.length := by
  induction l with
  | nil => rfl
  | cons a l ih =>
    rw [List.flatMap_cons, List.filter_append, List.length_append, ih]
    have h2 : (Event.updatePod (h a) ns).isUpdatePod = true := rfl
    simp only [List.filter_cons, hg, h2, List.filter_nil, if_true,
      Bool.false_eq_true, if_false, List.length_cons, List.length_nil]
    omega

/-- The retry bound of role labeling when every fetched pod has a label map.
For an added pod with the role `true` or `false` and a script in which every
fetch succeeds and answers a pod with a label map: when `k` is the position of
the first write that succeeds (any `k` above 8 when the first eight fail), the
calls are `min 8 k` pairs of a fetch and the write of what it answered, so there
are exactly `min 8 k` writes; when no write succeeds there are 8; and
`checkPostgresPods` returns to its caller, with no error to return. -/
theorem checkPostgresPods_attempts_labelled (u : Util) (sc : Script) (c : PodController)
    (newpod : Pod) (f : Nat → Pod)
    (hrole : newpod.labels.get u.LABEL_PRIMARY = "true" ∨
      newpod.labels.get u.LABEL_PRIMARY = "false")
    (hfetch : ∀ t, sc.getPod t = .ok (f t)) (hl : ∀ t, (f t).labels ≠ .nil) :
    (∀ k, 0 < k → (∀ t, t + 1 < k → sc.updatePod t ≠ none) →
      (k ≤ 8 → sc.updatePod (k - 1) = none) →
        calls (outcome (checkPostgresPods (scripted u sc) c newpod) Cursor.start).2 =
          ((List.range (min 8 k)).flatMap fun t =>
            [Event.getPod newpod.name c.ns,
              Event.updatePod ((f t).withLabel u.LABEL_SERVICE_NAME
                (if newpod.labels.get u.LABEL_PRIMARY = "true" then
                  newpod.labels.get u.LABEL_PG_CLUSTER
                else newpod.labels.get u.LABEL_PG_CLUSTER ++ "-replica")) c.ns]) ∧
        ((outcome (checkPostgresPods (scripted u sc) c newpod) Cursor.start).2.filter
          Event.isUpdatePod).length = min 8 k) ∧
    ((∀ t, sc.updatePod t ≠ none) →
      ((outcome (checkPostgresPods (scripted u sc) c newpod) Cursor.start).2.filter
        Event.isUpdatePod).length = 8) ∧
    (outcome (checkPostgresPods (scripted u sc) c newpod) Cursor.start).1 = .returned () := by
  have key : ∀ k, 0 < k → (∀ t, t + 1 < k → sc.updatePod t ≠ none) →
      (k ≤ 8 → sc.updatePod (k - 1) = none) →
      calls (outcome (checkPostgresPods (scripted u sc) c newpod) Cursor.start).2 =
        ((List.range (min 8 k)).flatMap fun t =>
          [Event.getPod newpod.name c.ns,
            Event.updatePod ((f t).withLabel u.LABEL_SERVICE_NAME (serviceName u newpod))
              c.ns]) := by
    intro k hk hfail hok
    by_cases h8 : k ≤ 8
    · obtain ⟨m, rfl⟩ : ∃ m, k = m + 1 := ⟨k - 1, by omega⟩
      rw [checkPostgresPods_written u sc c newpod f (fun t => (sc.updatePod t).getD "") m
        (by omega) hrole (fun t _ => hfetch t) (fun t _ => hl t)
        (fun t ht => updatePod_failed sc t (hfail t (by omega))) (by simpa using hok h8)]
      rw [calls_append, calls_flatMap_attempts, calls_attempt, Nat.min_eq_right h8,
        List.range_succ, List.flatMap_append]
      simp
    · rw [checkPostgresPods_exhausted u sc c newpod f (fun t => (sc.updatePod t).getD "")
        hrole (fun t _ => hfetch t) (fun t _ => hl t)
        (fun t ht => updatePod_failed sc t (hfail t (by omega)))]
      rw [calls_flatMap_attempts, Nat.min_eq_left (by omega)]
  have count : ∀ k, 0 < k → (∀ t, t + 1 < k → sc.updatePod t ≠ none) →
      (k ≤ 8 → sc.updatePod (k - 1) = none) →
      ((outcome (checkPostgresPods (scripted u sc) c newpod) Cursor.start).2.filter
        Event.isUpdatePod).length = min 8 k := by
    intro k hk hfail hok
    rw [← filter_isUpdatePod_calls, key k hk hfail hok,
      length_filter_isUpdatePod_pairs (fun _ => Event.getPod newpod.name c.ns) _ _
        (fun _ => rfl), List.length_range]
  refine ⟨fun k hk hfail hok => ⟨?_, count k hk hfail hok⟩, ?_, ?_⟩
  · rw [key k hk hfail hok]
    rfl
  · intro hnone
    exact count 9 (by omega) (fun t _ => hnone t) (fun h => absurd h (by omega))
  · by_cases hex : ∃ m, m < 8 ∧ sc.updatePod m = none
    · obtain ⟨m, hm, hmin⟩ : ∃ m, (m < 8 ∧ sc.updatePod m = none) ∧
          ∀ t < m, ¬ (t < 8 ∧ sc.updatePod t = none) := by
        classical
        exact ⟨Nat.find hex, Nat.find_spec hex, fun t ht => Nat.find_min hex ht⟩
      rw [checkPostgresPods_written u sc c newpod f (fun t => (sc.updatePod t).getD "") m
        hm.1 hrole (fun t _ => hfetch t) (fun t _ => hl t)
        (fun t ht => updatePod_failed sc t (fun h => hmin t ht ⟨by omega, h⟩)) hm.2]
    · rw [checkPostgresPods_exhausted u sc c newpod f (fun t => (sc.updatePod t).getD "")
        hrole (fun t _ => hfetch t) (fun t _ => hl t)
        (fun t ht => updatePod_failed sc t (fun h => hex ⟨t, ht, h⟩))]

/-- Claim C2, at the input where the code departs from it.  For an added pod
with the role `true` or `false` and a script in which every fetch succeeds: when
the first `m < 8` attempts fetched a pod with a label map and their writes
failed, and the fetch of attempt `m + 1` answers a pod whose label map is `nil`,
the statement that sets `service-name` panics.  `checkPostgresPods` does not
return to its caller, the write of attempt `m + 1` is never made, and the run
has made `m` writes, whatever the answers the writes to come would have had:
fewer than the `min 8 k` writes of the retry bound, `k > m` being the position
of the first write that would succeed. -/
theorem checkPostgresPods_attempts_nil_labels (u : Util) (sc : Script) (c : PodController)
    (newpod : Pod) (f : Nat → Pod) (m : Nat) (hm : m < 8)
    (hrole : newpod.labels.get u.LABEL_PRIMARY = "true" ∨
      newpod.labels.get u.LABEL_PRIMARY = "false")
    (hfetch : ∀ t, sc.getPod t = .ok (f t))
    (hl : ∀ t < m, (f t).labels ≠ .nil) (hfail : ∀ t < m, sc.updatePod t ≠ none)
    (hnil : (f m).labels = .nil) :
    (outcome (checkPostgresPods (scripted u sc) c newpod) Cursor.start).1 = .panicked ∧
    calls (outcome (checkPostgresPods (scripted u sc) c newpod) Cursor.start).2 =
      ((List.range m).flatMap fun t =>
        [Event.getPod newpod.name c.ns,
          Event.updatePod ((f t).withLabel u.LABEL_SERVICE_NAME
            (if newpod.labels.get u.LABEL_PRIMARY = "true" then
              newpod.labels.get u.LABEL_PG_CLUSTER
            else newpod.labels.get u.LABEL_PG_CLUSTER ++ "-replica")) c.ns]) ++
        [Event.getPod newpod.name c.ns] ∧
    ((outcome (checkPostgresPods (scripted u sc) c newpod) Cursor.start).2.filter
      Event.isUpdatePod).length = m := by
  have hrun := checkPostgresPods_crashed u sc c newpod f (fun t => (sc.updatePod t).getD "") m
    hm hrole (fun t _ => hfetch t) hl (fun t ht => updatePod_failed sc t (hfail t ht)) hnil
  have hcalls : calls (outcome (checkPostgresPods (scripted u sc) c newpod) Cursor.start).2 =
      ((List.range m).flatMap fun t =>
        [Event.getPod newpod.name c.ns,
          Event.updatePod ((f t).withLabel u.LABEL_SERVICE_NAME (serviceName u newpod))
            c.ns]) ++ [Event.getPod newpod.name c.ns] := by
    rw [hrun, calls_append, calls_flatMap_attempts]
    congr 1
    unfold addedLine calls
    split_ifs <;> simp [List.filter_cons, Event.isCall]
  refine ⟨by rw [hrun], hcalls, ?_⟩
  rw [← filter_isUpdatePod_calls, hcalls, List.filter_append,
    List.length_append, length_filter_isUpdatePod_pairs (fun _ => Event.getPod newpod.name c.ns)
      _ _ (fun _ => rfl), List.length_range]
  simp [Event.isUpdatePod]

/-- Witness of C2, the failing input: the primary `c1-a` is added, every fetch
answers `c1-a` without labels and every write would succeed, so the retry bound
asks for one write and a return; the run panics after its first fetch and makes
no write. -/
theorem checkPostgresPods_attempts_nil_labels_witness :
    (∀ t, nilLabelsScript.getPod t = .ok podC1a.unlabelled) ∧
    (∀ t, nilLabelsScript.updatePod t = none) ∧
    (outcome (checkPostgresPods (scripted specKeys nilLabelsScript) ⟨"ns"⟩ podC1a)
      Cursor.start).1 = .panicked ∧
    calls (outcome (checkPostgresPods (scripted specKeys nilLabelsScript) ⟨"ns"⟩ podC1a)
        Cursor.start).2 = [Event.getPod "c1-a" "ns"] ∧
    ((outcome (checkPostgresPods (scripted specKeys nilLabelsScript) ⟨"ns"⟩ podC1a)
      Cursor.start).2.filter Event.isUpdatePod).length = 0 :=
  ⟨fun _ => rfl, fun _ => rfl,
    checkPostgresPods_attempts_nil_labels specKeys nilLabelsScript ⟨"ns"⟩ podC1a
      (fun _ => podC1a.unlabelled) 0 (by decide) (Or.inl (by decide)) (fun _ => rfl)
      (fun _ h => absurd h (by omega)) (fun _ h => absurd h (by omega)) rfl⟩

theorem checkPostgresPods_after_failed (u : Util) (sc : Script) (c : PodController)
    (newpod : Pod) (f : Nat → Pod) (e : Nat → Error) (m : Nat) (hm : m < 8)
    (hrole : newpod.labels.get u.LABEL_PRIMARY = "true" ∨
      newpod.labels.get u.LABEL_PRIMARY = "false")
    (hf : ∀ t < m, sc.getPod t = .ok (f t))
    (hl : ∀ t < m, (f t).labels ≠ .nil)
    (he : ∀ t < m, sc.updatePod t = some (e t)) :
    ∃ rest, (outcome (checkPostgresPods (scripted u sc) c newpod) Cursor.start).2 =
      ((List.range m).flatMap fun t =>
          attempt u c newpod (f t) ++ retryLines u newpod (f t) (e t)) ++
        Event.getPod newpod.name c.ns :: rest := by
  obtain ⟨n, hn⟩ : ∃ n, 8 = m + (n + 1) := ⟨7 - m, by omega⟩
  have h1 := loop_failed_attempts u sc c newpod f e m (n + 1) Cursor.start []
    hrole (fun t ht => by simpa [Cursor.start] using hf t ht) hl
    (fun t ht => by simpa [Cursor.start] using he t ht)
  obtain ⟨rest, h2⟩ := loop_first_call u sc c newpod n
    { Cursor.start with getPod := Cursor.start.getPod + m,
                        updatePod := Cursor.start.updatePod + m }
    ([] ++ (List.range m).flatMap fun t =>
      attempt u c newpod (f t) ++ retryLines u newpod (f t) (e t)) hrole
  refine ⟨rest, ?_⟩
  unfold outcome checkPostgresPods
  rw [hn, h1, h2]
  simp

/-- Claim C8, as amended.  For an added pod with the role `true` or `false`,
after `m < 8` attempts whose fetch succeeded and whose write failed (a write is
made only on a fetched pod that has a label map): each write error is logged and
the next attempt follows, its fetch being the next call; and when the fetch of
attempt `m + 1` fails, the error is logged and nothing follows the failed fetch,
neither a fetch nor a write. -/
theorem checkPostgresPods_errors (u : Util) (sc : Script) (c : PodController) (newpod : Pod)
    (f : Nat → Pod) (e : Nat → Error) (m : Nat) (hm : m < 8)
    (hrole : newpod.labels.get u.LABEL_PRIMARY = "true" ∨
      newpod.labels.get u.LABEL_PRIMARY = "false")
    (hf : ∀ t < m, sc.getPod t = .ok (f t))
    (hl : ∀ t < m, (f t).labels ≠ .nil)
    (he : ∀ t < m, sc.updatePod t = some (e t)) :
    (∀ t < m, Event.log .error [e t] ∈
      (outcome (checkPostgresPods (scripted u sc) c newpod) Cursor.start).2) ∧
    (∃ rest, calls (outcome (checkPostgresPods (scripted u sc) c newpod) Cursor.start).2 =
      ((List.range m).flatMap fun t =>
        [Event.getPod newpod.name c.ns,
          Event.updatePod ((f t).withLabel u.LABEL_SERVICE_NAME
            (if newpod.labels.get u.LABEL_PRIMARY = "true" then
              newpod.labels.get u.LABEL_PG_CLUSTER
            else newpod.labels.get u.LABEL_PG_CLUSTER ++ "-replica")) c.ns]) ++
        Event.getPod newpod.name c.ns :: rest) ∧
    (∀ err, sc.getPod m = .error err →
      Event.log .error [err] ∈
        (outcome (checkPostgresPods (scripted u sc) c newpod) Cursor.start).2 ∧
      calls (outcome (checkPostgresPods (scripted u sc) c newpod) Cursor.start).2 =
        ((List.range m).flatMap fun t =>
          [Event.getPod newpod.name c.ns,
            Event.updatePod ((f t).withLabel u.LABEL_SERVICE_NAME
              (if newpod.labels.get u.LABEL_PRIMARY = "true" then
                newpod.labels.get u.LABEL_PG_CLUSTER
              else newpod.labels.get u.LABEL_PG_CLUSTER ++ "-replica")) c.ns]) ++
          [Event.getPod newpod.name c.ns]) := by
  obtain ⟨rest, h⟩ := checkPostgresPods_after_failed u sc c newpod f e m hm hrole hf hl he
  refine ⟨?_, ?_, ?_⟩
  · intro t ht
    rw [h]
    apply List.mem_append_left
    rw [List.mem_flatMap]
    exact ⟨t, List.mem_range.mpr ht, by simp [retryLines]⟩
  · refine ⟨calls rest, ?_⟩
    rw [h, calls_append, calls_flatMap_attempts]
    rfl
  · intro err hx
    rw [checkPostgresPods_fetch_failed u sc c newpod f e m hm err hrole hf hl he hx]
    constructor
    · simp
    · rw [calls_append, calls_flatMap_attempts]
      rfl

/-- Witness of C8 as amended: the writes of the first two attempts fail with
`conflict`, each is logged and followed by the fetch of the next attempt; the
fetch of the third attempt fails with `timeout`, which is logged, and no call
follows it. -/
theorem checkPostgresPods_errors_witness :
    (∀ t < 2, Event.log .error ["conflict"] ∈
      (outcome (checkPostgresPods (scripted specKeys retryFetchErrorScript) ⟨"ns"⟩ podC1a)
        Cursor.start).2) ∧
    (∃ rest,
      calls (outcome (checkPostgresPods (scripted specKeys retryFetchErrorScript) ⟨"ns"⟩ podC1a)
        Cursor.start).2 =
      ((List.range 2).flatMap fun _ =>
        [Event.getPod "c1-a" "ns",
          Event.updatePod (podC1a.withLabel "service-selector" "c1") "ns"]) ++
        Event.getPod "c1-a" "ns" :: rest) ∧
    (∀ err, retryFetchErrorScript.getPod 2 = .error err →
      Event.log .error [err] ∈
        (outcome (checkPostgresPods (scripted specKeys retryFetchErrorScript) ⟨"ns"⟩ podC1a)
          Cursor.start).2 ∧
      calls (outcome (checkPostgresPods (scripted specKeys retryFetchErrorScript) ⟨"ns"⟩ podC1a)
          Cursor.start).2 =
        ((List.range 2).flatMap fun _ =>
          [Event.getPod "c1-a" "ns",
            Event.updatePod (podC1a.withLabel "service-selector" "c1") "ns"]) ++
          [Event.getPod "c1-a" "ns"]) :=
  checkPostgresPods_errors specKeys retryFetchErrorScript ⟨"ns"⟩ podC1a (fun _ => podC1a)
    (fun _ => "conflict") 2 (by decide) (Or.inl (by decide))
    (fun t ht => by simp [retryFetchErrorScript, ht])
    (fun _ _ => (by decide : podC1a.labels ≠ .nil))
    (fun t ht => by simp [retryFetchErrorScript, retryScript, ht])

/-- Counterexample to claim C8 as stated: the first fetch fails, the second would
succeed, and `checkPostgresPods` logs the error and returns after that one
fetch. -/
theorem checkPostgresPods_fetch_error_counterexample :
    fetchErrorScript.getPod 0 = .error "timeout" ∧
    fetchErrorScript.getPod 1 = .ok podC1a ∧
    (outcome (checkPostgresPods (scripted specKeys fetchErrorScript) ⟨"ns"⟩ podC1a)
        Cursor.start).2 =
      [Event.getPod "c1-a" "ns", Event.log .error ["timeout"],
        Event.log .error [" could not get pod %s", "c1-a"]] := by
  refine ⟨rfl, rfl, ?_⟩
  decide

section Failover
variable (u : Util) (sc : Script)

theorem statusReports_append (a b : List Event) :
    statusReports (a ++ b) = statusReports a ++ statusReports b := by
  simp [statusReports]

theorem updateFailoverStatus_error (task : Pgtask) (ns cl msg : String) (k : Cursor)
    (tr : List Event) (e : Error) (h : sc.getpgtask k.getpgtask = .error e) :
    updateFailoverStatus (scripted u sc) task ns cl msg ⟨k, tr⟩ =
      (.returned task, ⟨{ k with getpgtask := k.getpgtask + 1 },
        tr ++ [.logf .debug "updateFailoverStatus namespace=[%s] taskName=[%s] message=[%s]"
            [ns, task.name, msg],
          .getpgtask task.name task.ns]⟩) := by
  simp only [updateFailoverStatus, Run.bind_apply, emit_apply, call_apply, scripted_getpgtask,
    h, Run.pure_apply]
  simp

theorem updateFailoverStatus_ok (task : Pgtask) (ns cl msg : String) (k : Cursor)
    (tr : List Event) (fetched : Pgtask) (h : sc.getpgtask k.getpgtask = .ok fetched) :
    updateFailoverStatus (scripted u sc) task ns cl msg ⟨k, tr⟩ =
      (.returned { fetched with statusMessage := msg },
        ⟨{ k with getpgtask := k.getpgtask + 1, updatepgtask := k.updatepgtask + 1 },
        tr ++ [.logf .debug "updateFailoverStatus namespace=[%s] taskName=[%s] message=[%s]"
            [ns, task.name, msg],
          .getpgtask task.name task.ns,
          .updatepgtask { fetched with statusMessage := msg } fetched.name fetched.ns]⟩) := by
  simp only [updateFailoverStatus, Run.bind_apply, emit_apply, call_apply, scripted_getpgtask,
    h, Run.pure_apply, scripted_updatepgtask]
  simp

theorem promote_scripted (pod : Pod) (ns : String) (k : Cursor) (tr : List Event) :
    promote (scripted u sc) pod ns ⟨k, tr⟩ =
      (.returned (sc.execToPodThroughAPI k.execToPodThroughAPI).2.2,
        ⟨{ k with execToPodThroughAPI := k.execToPodThroughAPI + 1 },
        tr ++ ([.logf .debug
              "running Exec with namespace=[%s] podname=[%s] container name=[%s]"
              [ns, pod.name, pod.firstContainer.name],
            .execToPodThroughAPI ["/opt/cpm/bin/promote.sh"] pod.firstContainer.name pod.name
              ns none,
            .logf .debug "stdout=[%s] stderr=[%s]"
              [(sc.execToPodThroughAPI k.execToPodThroughAPI).1,
                (sc.execToPodThroughAPI k.execToPodThroughAPI).2.1]] ++
          match (sc.execToPodThroughAPI k.execToPodThroughAPI).2.2 with
          | some err => [.log .error [err]]
          | none => [])⟩) := by
  simp only [promote, Run.bind_apply, emit_apply, call_apply, scripted_execToPodThroughAPI]
  cases (sc.execToPodThroughAPI k.execToPodThroughAPI).2.2 with
  | none => simp [Run.pure_apply]
  | some err => simp [Run.pure_apply, Run.bind_apply, emit_apply]

theorem deletePrimary_none (ns cl : String) (k : Cursor) (tr : List Event)
    (h : (sc.getPods k.getPods).1 = []) :
    deletePrimary (scripted u sc) ns cl ⟨k, tr⟩ =
      (.returned (some "could not find primary pod"), ⟨{ k with getPods := k.getPods + 1 },
        tr ++ [.getPods (u.LABEL_SERVICE_NAME ++ "=" ++ cl) ns,
          .logf .error "no primary pod found when trying to delete primary %s"
            [u.LABEL_SERVICE_NAME ++ "=" ++ cl]]⟩) := by
  simp only [deletePrimary, Run.bind_apply, call_apply, scripted_getPods, h, emit_apply,
    Run.pure_apply, scripted_util]
  simp

theorem deletePrimary_many (ns cl : String) (k : Cursor) (tr : List Event) (p q : Pod)
    (r : List Pod) (h : (sc.getPods k.getPods).1 = p :: q :: r) :
    deletePrimary (scripted u sc) ns cl ⟨k, tr⟩ =
      (.returned (some "more than 1 primary pod found in delete primary logic"),
        ⟨{ k with getPods := k.getPods + 1 },
        tr ++ [.getPods (u.LABEL_SERVICE_NAME ++ "=" ++ cl) ns,
          .logf .error "more than 1 primary pod found when trying to delete primary %s"
            [u.LABEL_SERVICE_NAME ++ "=" ++ cl]]⟩) := by
  simp only [deletePrimary, Run.bind_apply, call_apply, scripted_getPods, h, emit_apply,
    Run.pure_apply, scripted_util]
  simp

theorem deletePrimary_one (ns cl : String) (k : Cursor) (tr : List Event) (p : Pod)
    (h : (sc.getPods k.getPods).1 = [p]) :
    deletePrimary (scripted u sc) ns cl ⟨k, tr⟩ =
      (.returned (sc.deleteDeployment k.deleteDeployment),
        ⟨{ k with getPods := k.getPods + 1, deleteDeployment := k.deleteDeployment + 1 },
        tr ++ [.getPods (u.LABEL_SERVICE_NAME ++ "=" ++ cl) ns,
          .logf .debug "deleting deployment %s" [p.labels.get u.LABEL_DEPLOYMENT_NAME],
          .deleteDeployment (p.labels.get u.LABEL_DEPLOYMENT_NAME) ns]⟩) := by
  simp only [deletePrimary, Run.bind_apply, call_apply, scripted_getPods, h, emit_apply,
    Run.pure_apply, scripted_util, scripted_deleteDeployment]
  simp

variable (cl : String) (task : Pgtask) (ns : String)

theorem Failover_candidate_error (e : Error) (h1 : sc.utilGetPod 0 = .error e) :
    outcome (Failover (scripted u sc) cl task ns) Cursor.start =
      (.returned (some e), failoverStart u cl task ns ++ [.log .error [e]]) := by
  simp only [outcome, Failover, Run.bind_apply, emit_apply, call_apply, scripted_utilGetPod,
    Cursor.start, h1, Run.pure_apply, scripted_util, failoverStart]
  simp

theorem Failover_no_primary (pod : Pod) (h1 : sc.utilGetPod 0 = .ok pod)
    (h2 : (sc.getPods 0).1 = []) :
    outcome (Failover (scripted u sc) cl task ns) Cursor.start =
      (.returned (some "could not find primary pod"), failoverStart u cl task ns ++
        [.logf .debug "best pod to failover to is %s" [pod.name],
          .getPods (u.LABEL_SERVICE_NAME ++ "=" ++ cl) ns,
          .logf .error "no primary pod found when trying to delete primary %s"
            [u.LABEL_SERVICE_NAME ++ "=" ++ cl],
          .log .error ["could not find primary pod"]]) := by
  simp only [outcome, Failover, Run.bind_apply, emit_apply, call_apply, scripted_utilGetPod,
    Cursor.start, h1, Run.pure_apply, scripted_util, failoverStart]
  rw [deletePrimary_none u sc ns cl _ _ h2]
  simp [Run.bind_apply, emit_apply, Run.pure_apply]

theorem Failover_many_primaries (pod p q : Pod) (r : List Pod)
    (h1 : sc.utilGetPod 0 = .ok pod) (h2 : (sc.getPods 0).1 = p :: q :: r) :
    outcome (Failover (scripted u sc) cl task ns) Cursor.start =
      (.returned (some "more than 1 primary pod found in delete primary logic"),
        failoverStart u cl task ns ++
        [.logf .debug "best pod to failover to is %s" [pod.name],
          .getPods (u.LABEL_SERVICE_NAME ++ "=" ++ cl) ns,
          .logf .error "more than 1 primary pod found when trying to delete primary %s"
            [u.LABEL_SERVICE_NAME ++ "=" ++ cl],
          .log .error ["more than 1 primary pod found in delete primary logic"]]) := by
  simp only [outcome, Failover, Run.bind_apply, emit_apply, call_apply, scripted_utilGetPod,
    Cursor.start, h1, Run.pure_apply, scripted_util, failoverStart]
  rw [deletePrimary_many u sc ns cl _ _ p q r h2]
  simp [Run.bind_apply, emit_apply, Run.pure_apply]

theorem Failover_delete_error (pod p : Pod) (e : Error)
    (h1 : sc.utilGetPod 0 = .ok pod) (h2 : (sc.getPods 0).1 = [p])
    (h3 : sc.deleteDeployment 0 = some e) :
    outcome (Failover (scripted u sc) cl task ns) Cursor.start =
      (.returned (some e), failoverStart u cl task ns ++ failoverDelete u cl ns pod p ++
        [.log .error [e]]) := by
  simp only [outcome, Failover, Run.bind_apply, emit_apply, call_apply, scripted_utilGetPod,
    Cursor.start, h1, Run.pure_apply, scripted_util, failoverStart, failoverDelete]
  rw [deletePrimary_one u sc ns cl _ _ p h2]
  simp [Run.bind_apply, emit_apply, Run.pure_apply, h3]

theorem updateFailoverStatus_apply (task : Pgtask) (ns cl msg : String) (k : Cursor)
    (tr : List Event) :
    updateFailoverStatus (scripted u sc) task ns cl msg ⟨k, tr⟩ =
      (.returned (statusTask sc task msg k.getpgtask),
        ⟨{ k with getpgtask := k.getpgtask + 1,
                  updatepgtask := k.updatepgtask + statusWrites sc k.getpgtask },
          tr ++ statusEvents sc task ns msg k.getpgtask⟩) := by
  cases h : sc.getpgtask k.getpgtask with
  | error e =>
    rw [updateFailoverStatus_error u sc task ns cl msg k tr e h]
    simp [statusTask, statusWrites, statusEvents, h]
  | ok fetched =>
    rw [updateFailoverStatus_ok u sc task ns cl msg k tr fetched h]
    simp [statusTask, statusWrites, statusEvents, h]

theorem statusReports_statusEvents (task : Pgtask) (ns msg : String) (i : Nat) :
    statusReports (statusEvents sc task ns msg i) = [msg] := by
  unfold statusEvents
  cases sc.getpgtask i <;> simp [statusReports, statusReport]

theorem calls_statusEvents (task : Pgtask) (ns msg : String) (i : Nat) :
    (calls (statusEvents sc task ns msg i)).filter (fun e => !e.isTaskCall) = [] := by
  unfold statusEvents
  cases sc.getpgtask i <;> simp [calls, Event.isCall, Event.isTaskCall]

theorem promote_apply (pod : Pod) (k : Cursor) (tr : List Event) :
    promote (scripted u sc) pod ns ⟨k, tr⟩ =
      (.returned (sc.execToPodThroughAPI k.execToPodThroughAPI).2.2,
        ⟨{ k with execToPodThroughAPI := k.execToPodThroughAPI + 1 },
          tr ++ promoteEvents sc pod ns k.execToPodThroughAPI⟩) :=
  promote_scripted u sc pod ns k tr

theorem Failover_after_delete (pod p : Pod)
    (h1 : sc.utilGetPod 0 = .ok pod) (h2 : (sc.getPods 0).1 = [p])
    (h3 : sc.deleteDeployment 0 = none) :
    outcome (Failover (scripted u sc) cl task ns) Cursor.start =
      (failoverRelabelResult (sc.getPod 0) (sc.updatePod 0),
        failoverStart u cl task ns ++ failoverDelete u cl ns pod p ++
          failoverMiddle u sc cl task ns pod ++
          failoverRelabel u cl ns pod (sc.getPod 0) (sc.updatePod 0) ++
          if failoverRelabelResult (sc.getPod 0) (sc.updatePod 0) = .returned none then
            failoverEnd u sc cl task ns pod
          else []) := by
  simp only [outcome, Failover, Run.bind_apply, emit_apply, call_apply, scripted_utilGetPod,
    Cursor.start, h1, scripted_util]
  rw [deletePrimary_one u sc ns cl _ _ p h2]
  simp only [h3, Run.bind_apply, updateFailoverStatus_apply, promote_apply, call_apply,
    scripted_getPod]
  cases h4 : sc.getPod 0 with
  | error e =>
    simp [h4, Run.bind_apply, emit_apply, Run.pure_apply, failoverRelabelResult,
      failoverRelabel, failoverStart, failoverDelete, failoverMiddle]
  | ok upod =>
    by_cases hl : upod.labels = .nil
    · simp [h4, hl, Run.bind_apply, assignLabel_nil _ _ _ _ hl, failoverRelabelResult,
        failoverRelabel, failoverStart, failoverDelete, failoverMiddle]
    · cases h5 : sc.updatePod 0 with
      | some e =>
        simp [h4, h5, hl, Run.bind_apply, emit_apply, Run.pure_apply, call_apply,
          assignLabel_apply _ _ _ _ hl,
          scripted_updatePod, scripted_util, failoverRelabelResult, failoverRelabel,
          failoverStart, failoverDelete, failoverMiddle]
      | none =>
        simp [h4, h5, hl, Run.bind_apply, emit_apply, Run.pure_apply, call_apply,
          assignLabel_apply _ _ _ _ hl,
          scripted_updatePod, scripted_util, failoverRelabelResult, failoverRelabel,
          failoverStart, failoverDelete, failoverMiddle, failoverEnd,
          updateFailoverStatus_apply]

end Failover

section FailoverClaims
variable (u : Util) (sc : Script) (cl : String) (task : Pgtask) (ns : String)

theorem statusReports_failoverStart : statusReports (failoverStart u cl task ns) = [] := by
  simp [statusReports, failoverStart, statusReport]

theorem statusReports_failoverDelete (pod p : Pod) :
    statusReports (failoverDelete u cl ns pod p) = [] := by
  simp [statusReports, failoverDelete, statusReport]

theorem statusReports_promoteEvents (pod : Pod) (i : Nat) :
    statusReports (promoteEvents sc pod ns i) = [] := by
  unfold promoteEvents
  cases (sc.execToPodThroughAPI i).2.2 <;> simp [statusReports, statusReport]

theorem statusReports_failoverMiddle (pod : Pod) :
    statusReports (failoverMiddle u sc cl task ns pod) =
      ["deleting primary deployment " ++ cl,
        "promoting pod " ++ pod.name ++ " target " ++ task.labels.get u.LABEL_TARGET] := by
  simp [failoverMiddle, statusReports_append, statusReports_statusEvents,
    statusReports_promoteEvents]

theorem statusReports_failoverRelabel (pod : Pod) (r : Except Error Pod) (w : Option Error) :
    statusReports (failoverRelabel u cl ns pod r w) = [] := by
  cases r with
  | error e => simp [statusReports, failoverRelabel, statusReport]
  | ok upod =>
    by_cases hl : upod.labels = .nil
    · simp [statusReports, failoverRelabel, statusReport, hl]
    · cases w <;> simp [statusReports, failoverRelabel, statusReport, hl]

theorem statusReports_failoverEnd (pod : Pod) :
    statusReports (failoverEnd u sc cl task ns pod) =
      ["re-labeling deployment...pod " ++ pod.name ++
        "was the failover target...failover completed"] := by
  simp [failoverEnd, statusReports_statusEvents]

theorem statusReports_Failover_after_delete (pod p : Pod)
    (h1 : sc.utilGetPod 0 = .ok pod) (h2 : (sc.getPods 0).1 = [p])
    (h3 : sc.deleteDeployment 0 = none) :
    statusReports (outcome (Failover (scripted u sc) cl task ns) Cursor.start).2 =
      ["deleting primary deployment " ++ cl,
        "promoting pod " ++ pod.name ++ " target " ++ task.labels.get u.LABEL_TARGET] ++
      if failoverRelabelResult (sc.getPod 0) (sc.updatePod 0) = .returned none then
        ["re-labeling deployment...pod " ++ pod.name ++
          "was the failover target...failover completed"]
      else [] := by
  rw [Failover_after_delete u sc cl task ns pod p h1 h2 h3]
  simp only [statusReports_append, statusReports_failoverStart, statusReports_failoverDelete,
    statusReports_failoverMiddle, statusReports_failoverRelabel, List.nil_append,
    List.append_nil]
  split_ifs
  · rw [statusReports_failoverEnd]
  · rfl

theorem Failover_early_reports (e : Error) (evs : List Event)
    (h : outcome (Failover (scripted u sc) cl task ns) Cursor.start = (.returned (some e), evs))
    (hs : statusReports evs = []) :
    (outcome (Failover (scripted u sc) cl task ns) Cursor.start).1 ≠ .returned none ∧
      statusReports (outcome (Failover (scripted u sc) cl task ns) Cursor.start).2 = [] := by
  rw [h]
  exact ⟨by simp, hs⟩

theorem Failover_reports_cases :
    ((outcome (Failover (scripted u sc) cl task ns) Cursor.start).1 ≠ .returned none ∧
      statusReports (outcome (Failover (scripted u sc) cl task ns) Cursor.start).2 = []) ∨
    ∃ pod, sc.utilGetPod 0 = .ok pod ∧
      (((outcome (Failover (scripted u sc) cl task ns) Cursor.start).1 ≠ .returned none ∧
        statusReports (outcome (Failover (scripted u sc) cl task ns) Cursor.start).2 =
          ["deleting primary deployment " ++ cl,
            "promoting pod " ++ pod.name ++ " target " ++ task.labels.get u.LABEL_TARGET]) ∨
      ((outcome (Failover (scripted u sc) cl task ns) Cursor.start).1 = .returned none ∧
        statusReports (outcome (Failover (scripted u sc) cl task ns) Cursor.start).2 =
          ["deleting primary deployment " ++ cl,
            "promoting pod " ++ pod.name ++ " target " ++ task.labels.get u.LABEL_TARGET,
            "re-labeling deployment...pod " ++ pod.name ++
              "was the failover target...failover completed"])) := by
  cases h1 : sc.utilGetPod 0 with
  | error e =>
    exact Or.inl (Failover_early_reports u sc cl task ns e _
      (Failover_candidate_error u sc cl task ns e h1)
      (by rw [statusReports_append, statusReports_failoverStart]
          simp [statusReports, statusReport]))
  | ok pod =>
    rcases h2 : (sc.getPods 0).1 with _ | ⟨p, _ | ⟨q, r⟩⟩
    · exact Or.inl (Failover_early_reports u sc cl task ns _ _
        (Failover_no_primary u sc cl task ns pod h1 h2)
        (by rw [statusReports_append, statusReports_failoverStart]
            simp [statusReports, statusReport]))
    · cases h3 : sc.deleteDeployment 0 with
      | some e =>
        exact Or.inl (Failover_early_reports u sc cl task ns e _
          (Failover_delete_error u sc cl task ns pod p e h1 h2 h3)
          (by rw [statusReports_append, statusReports_append, statusReports_failoverStart,
                statusReports_failoverDelete]
              simp [statusReports, statusReport]))
      | none =>
        refine Or.inr ⟨pod, rfl, ?_⟩
        have hr := statusReports_Failover_after_delete u sc cl task ns pod p h1 h2 h3
        have ho := Failover_after_delete u sc cl task ns pod p h1 h2 h3
        by_cases hn : failoverRelabelResult (sc.getPod 0) (sc.updatePod 0) = .returned none
        · right
          rw [if_pos hn] at hr
          exact ⟨by rw [ho]; exact hn, by rw [hr]; rfl⟩
        · left
          rw [if_neg hn] at hr
          exact ⟨by rw [ho]; exact hn, by rw [hr]; rfl⟩
    · exact Or.inl (Failover_early_reports u sc cl task ns _ _
        (Failover_many_primaries u sc cl task ns pod p q r h1 h2)
        (by rw [statusReports_append, statusReports_failoverStart]
            simp [statusReports, statusReport]))

/-- Claim C10.  In every run of `Failover` on the platform that answers from a
script, the messages of the status reports attempted are a beginning of the
three messages deleting, promoting, completed, in that order (none when the
candidate is not found); they are all three exactly when `Failover` returns
nil; when the re-fetch of the candidate fails, or the write of its relabel is
made (the re-fetched pod has a label map) and fails, `Failover` returns that
error and only the first two were reported; and when the re-fetched pod has no
label map, `Failover` panics before the write, returns nothing, and only the
first two were reported. -/
theorem Failover_status_reports :
    (∀ pod, sc.utilGetPod 0 = .ok pod →
      statusReports (outcome (Failover (scripted u sc) cl task ns) Cursor.start).2 <+:
        ["deleting primary deployment " ++ cl,
          "promoting pod " ++ pod.name ++ " target " ++ task.labels.get u.LABEL_TARGET,
          "re-labeling deployment...pod " ++ pod.name ++
            "was the failover target...failover completed"]) ∧
    (∀ e, sc.utilGetPod 0 = .error e →
      statusReports (outcome (Failover (scripted u sc) cl task ns) Cursor.start).2 = []) ∧
    ((statusReports (outcome (Failover (scripted u sc) cl task ns) Cursor.start).2).length = 3 ↔
      (outcome (Failover (scripted u sc) cl task ns) Cursor.start).1 = .returned none) ∧
    (∀ pod p, sc.utilGetPod 0 = .ok pod → (sc.getPods 0).1 = [p] →
      sc.deleteDeployment 0 = none →
        (∀ e, sc.getPod 0 = .error e →
          (outcome (Failover (scripted u sc) cl task ns) Cursor.start).1 = .returned (some e) ∧
          statusReports (outcome (Failover (scripted u sc) cl task ns) Cursor.start).2 =
            ["deleting primary deployment " ++ cl,
              "promoting pod " ++ pod.name ++ " target " ++ task.labels.get u.LABEL_TARGET]) ∧
        (∀ upod e, sc.getPod 0 = .ok upod → upod.labels ≠ .nil → sc.updatePod 0 = some e →
          (outcome (Failover (scripted u sc) cl task ns) Cursor.start).1 = .returned (some e) ∧
          statusReports (outcome (Failover (scripted u sc) cl task ns) Cursor.start).2 =
            ["deleting primary deployment " ++ cl,
              "promoting pod " ++ pod.name ++ " target " ++
                task.labels.get u.LABEL_TARGET]) ∧
        (∀ upod, sc.getPod 0 = .ok upod → upod.labels = .nil →
          (outcome (Failover (scripted u sc) cl task ns) Cursor.start).1 = .panicked ∧
          statusReports (outcome (Failover (scripted u sc) cl task ns) Cursor.start).2 =
            ["deleting primary deployment " ++ cl,
              "promoting pod " ++ pod.name ++ " target " ++
                task.labels.get u.LABEL_TARGET])) := by
  refine ⟨?_, ?_, ?_, ?_⟩
  · intro pod h1
    rcases Failover_reports_cases u sc cl task ns with ⟨_, h⟩ | ⟨pod2, h2, h | h⟩
    · rw [h]; exact List.nil_prefix
    · have hp : pod2 = pod := by rw [h1] at h2; exact (Except.ok.inj h2).symm
      subst hp
      rw [h.2]
      exact ⟨[_], rfl⟩
    · have hp : pod2 = pod := by rw [h1] at h2; exact (Except.ok.inj h2).symm
      subst hp
      rw [h.2]
  · intro e h1
    rcases Failover_reports_cases u sc cl task ns with ⟨_, h⟩ | ⟨pod2, h2, _⟩
    · exact h
    · rw [h1] at h2; cases h2
  · rcases Failover_reports_cases u sc cl task ns with ⟨h0, h⟩ | ⟨pod2, h2, h | h⟩
    · rw [h]; simp [h0]
    · rw [h.2]; simp [h.1]
    · rw [h.2]; simp [h.1]
  · intro pod p h1 h2 h3
    have hr := statusReports_Failover_after_delete u sc cl task ns pod p h1 h2 h3
    have ho := Failover_after_delete u sc cl task ns pod p h1 h2 h3
    refine ⟨?_, ?_, ?_⟩
    · intro e h4
      rw [h4] at hr ho
      exact ⟨by rw [ho]; rfl, by rw [hr]; simp [failoverRelabelResult]⟩
    · intro upod e h4 hl h5
      rw [h4, h5] at hr ho
      exact ⟨by rw [ho]; simp [failoverRelabelResult, hl],
        by rw [hr]; simp [failoverRelabelResult, hl]⟩
    · intro upod h4 hl
      rw [h4] at hr ho
      exact ⟨by rw [ho]; simp [failoverRelabelResult, hl],
        by rw [hr]; simp [failoverRelabelResult, hl]⟩

end FailoverClaims

section FailoverClaims2
variable (u : Util) (sc : Script) (cl : String) (task : Pgtask) (ns : String)

theorem calls_failoverStart :
    calls (failoverStart u cl task ns) = [.utilGetPod (task.labels.get u.LABEL_TARGET) ns] := by
  simp [calls, failoverStart, Event.isCall]

theorem calls_failoverDelete (pod p : Pod) :
    calls (failoverDelete u cl ns pod p) =
      [.getPods (u.LABEL_SERVICE_NAME ++ "=" ++ cl) ns,
        .deleteDeployment (p.labels.get u.LABEL_DEPLOYMENT_NAME) ns] := by
  simp [calls, failoverDelete, Event.isCall]

/-- Claim C3.  Primary-resolution guard.  When the listing by the selector
`service-name=<cluster>` answers no pod, or two or more, `Failover` returns (it
does not panic) and what it returns is an error, its calls are a beginning of the candidate fetch followed by the listing
(so no delete, no promotion command, no write of a pod and no call on the task),
and it attempts no status report; with the candidate found, the error is the
message of the zero case or that of the several case, and the two differ. -/
theorem Failover_primary_guard
    (h : (sc.getPods 0).1.length = 0 ∨ 2 ≤ (sc.getPods 0).1.length) :
    (∃ e, (outcome (Failover (scripted u sc) cl task ns) Cursor.start).1 =
      .returned (some e)) ∧
    calls (outcome (Failover (scripted u sc) cl task ns) Cursor.start).2 <+:
      [.utilGetPod (task.labels.get u.LABEL_TARGET) ns,
        .getPods (u.LABEL_SERVICE_NAME ++ "=" ++ cl) ns] ∧
    statusReports (outcome (Failover (scripted u sc) cl task ns) Cursor.start).2 = [] ∧
    (∀ pod, sc.utilGetPod 0 = .ok pod →
      ((sc.getPods 0).1.length = 0 →
        (outcome (Failover (scripted u sc) cl task ns) Cursor.start).1 =
          .returned (some "could not find primary pod")) ∧
      (2 ≤ (sc.getPods 0).1.length →
        (outcome (Failover (scripted u sc) cl task ns) Cursor.start).1 =
          .returned (some "more than 1 primary pod found in delete primary logic"))) ∧
    ("could not find primary pod" : Error) ≠
      "more than 1 primary pod found in delete primary logic" := by
  refine ⟨?_, ?_, ?_, ?_, by decide⟩
  · cases h1 : sc.utilGetPod 0 with
    | error e => exact ⟨e, by rw [Failover_candidate_error u sc cl task ns e h1]⟩
    | ok pod =>
      rcases h2 : (sc.getPods 0).1 with _ | ⟨p, _ | ⟨q, r⟩⟩
      · exact ⟨_, by rw [Failover_no_primary u sc cl task ns pod h1 h2]⟩
      · rw [h2] at h; simp at h
      · exact ⟨_, by rw [Failover_many_primaries u sc cl task ns pod p q r h1 h2]⟩
  · cases h1 : sc.utilGetPod 0 with
    | error e =>
      rw [Failover_candidate_error u sc cl task ns e h1, calls_append, calls_failoverStart]
      exact ⟨[.getPods (u.LABEL_SERVICE_NAME ++ "=" ++ cl) ns], by simp [calls, Event.isCall]⟩
    | ok pod =>
      rcases h2 : (sc.getPods 0).1 with _ | ⟨p, _ | ⟨q, r⟩⟩
      · rw [Failover_no_primary u sc cl task ns pod h1 h2, calls_append, calls_failoverStart]
        exact ⟨[], by simp [calls, Event.isCall]⟩
      · rw [h2] at h; simp at h
      · rw [Failover_many_primaries u sc cl task ns pod p q r h1 h2, calls_append,
          calls_failoverStart]
        exact ⟨[], by simp [calls, Event.isCall]⟩
  · cases h1 : sc.utilGetPod 0 with
    | error e =>
      rw [Failover_candidate_error u sc cl task ns e h1, statusReports_append,
        statusReports_failoverStart]
      simp [statusReports, statusReport]
    | ok pod =>
      rcases h2 : (sc.getPods 0).1 with _ | ⟨p, _ | ⟨q, r⟩⟩
      · rw [Failover_no_primary u sc cl task ns pod h1 h2, statusReports_append,
          statusReports_failoverStart]
        simp [statusReports, statusReport]
      · rw [h2] at h; simp at h
      · rw [Failover_many_primaries u sc cl task ns pod p q r h1 h2, statusReports_append,
          statusReports_failoverStart]
        simp [statusReports, statusReport]
  · intro pod h1
    rcases h2 : (sc.getPods 0).1 with _ | ⟨p, _ | ⟨q, r⟩⟩
    · rw [Failover_no_primary u sc cl task ns pod h1 h2]; simp
    · rw [h2] at h; simp at h
    · rw [Failover_many_primaries u sc cl task ns pod p q r h1 h2]; simp

theorem calls_statusEvents_ok (t fetched : Pgtask) (msg : String) (i : Nat)
    (h : sc.getpgtask i = .ok fetched) :
    calls (statusEvents sc t ns msg i) =
      [.getpgtask t.name t.ns,
        .updatepgtask { fetched with statusMessage := msg } fetched.name fetched.ns] := by
  simp [statusEvents, h, calls, Event.isCall]

theorem statusTask_ok (t fetched : Pgtask) (msg : String) (i : Nat)
    (h : sc.getpgtask i = .ok fetched) :
    statusTask sc t msg i = { fetched with statusMessage := msg } := by
  simp [statusTask, h]

theorem calls_promoteEvents (pod : Pod) (i : Nat) :
    calls (promoteEvents sc pod ns i) =
      [.execToPodThroughAPI ["/opt/cpm/bin/promote.sh"] pod.firstContainer.name pod.name ns
        none] := by
  unfold promoteEvents
  cases (sc.execToPodThroughAPI i).2.2 <;> simp [calls, Event.isCall]

/-- The happy path of `Failover` when the re-fetched candidate has a label map.
When the candidate is found, the listing answers exactly one pod, the delete, the
fetches of the task, the re-fetch and the write succeed, and the re-fetched pod
has a label map, `Failover` returns nil and its calls are exactly: the
candidate fetch, the listing, one delete of the deployment named by the
`deployment-name` label of the listed pod, the first status report, one run of
`/opt/cpm/bin/promote.sh` in the first container of the candidate with no
input, the second status report, the re-fetch, the write of the re-fetched pod
with `service-name` set to the bare cluster name, the third status report. -/
theorem Failover_happy_path_labelled (pod p upod : Pod) (t0 t1 t2 : Pgtask)
    (h1 : sc.utilGetPod 0 = .ok pod) (h2 : (sc.getPods 0).1 = [p])
    (h3 : sc.deleteDeployment 0 = none)
    (h5 : sc.getPod 0 = .ok upod) (hl : upod.labels ≠ .nil) (h6 : sc.updatePod 0 = none)
    (h7 : sc.getpgtask 0 = .ok t0) (h8 : sc.getpgtask 1 = .ok t1)
    (h9 : sc.getpgtask 2 = .ok t2) :
    (outcome (Failover (scripted u sc) cl task ns) Cursor.start).1 = .returned none ∧
    calls (outcome (Failover (scripted u sc) cl task ns) Cursor.start).2 =
      [.utilGetPod (task.labels.get u.LABEL_TARGET) ns,
        .getPods (u.LABEL_SERVICE_NAME ++ "=" ++ cl) ns,
        .deleteDeployment (p.labels.get u.LABEL_DEPLOYMENT_NAME) ns,
        .getpgtask task.name task.ns,
        .updatepgtask { t0 with statusMessage := "deleting primary deployment " ++ cl }
          t0.name t0.ns,
        .execToPodThroughAPI ["/opt/cpm/bin/promote.sh"] pod.firstContainer.name pod.name ns
          none,
        .getpgtask t0.name t0.ns,
        .updatepgtask { t1 with statusMessage :=
            "promoting pod " ++ pod.name ++ " target " ++ task.labels.get u.LABEL_TARGET }
          t1.name t1.ns,
        .getPod pod.name ns,
        .updatePod (upod.withLabel u.LABEL_SERVICE_NAME cl) ns,
        .getpgtask t1.name t1.ns,
        .updatepgtask { t2 with statusMessage :=
            "re-labeling deployment...pod " ++ pod.name ++
              "was the failover target...failover completed" }
          t2.name t2.ns] := by
  rw [Failover_after_delete u sc cl task ns pod p h1 h2 h3, h5, h6]
  have hn : failoverRelabelResult (Except.ok upod) (none : Option Error) = .returned none := by
    simp [failoverRelabelResult, hl]
  refine ⟨hn, ?_⟩
  rw [if_pos hn]
  simp only [calls_append, calls_failoverStart, calls_failoverDelete, failoverMiddle,
    failoverEnd, calls_promoteEvents, calls_statusEvents_ok sc ns _ _ _ _ h7,
    calls_statusEvents_ok sc ns _ _ _ _ h8, calls_statusEvents_ok sc ns _ _ _ _ h9,
    statusTask_ok sc _ _ _ _ h7, statusTask_ok sc _ _ _ _ h8]
  simp [calls, failoverRelabel, Event.isCall, hl]

/-- Claim C4, at the input where the code departs from it.  The candidate is
found, the listing answers exactly one pod, the delete, the fetches of the task
and the re-fetch succeed, and the re-fetched candidate has no label map.  The
statement that sets `service-name` on it panics: `Failover` does not return, and
its calls are the candidate fetch, the listing, the delete, the first status
report, the promotion command, the second status report and the re-fetch; the
write of the re-fetched pod is never made, whatever answer it would have had. -/
theorem Failover_happy_path_nil_labels (pod p upod : Pod) (t0 t1 : Pgtask)
    (h1 : sc.utilGetPod 0 = .ok pod) (h2 : (sc.getPods 0).1 = [p])
    (h3 : sc.deleteDeployment 0 = none)
    (h5 : sc.getPod 0 = .ok upod) (hnil : upod.labels = .nil)
    (h7 : sc.getpgtask 0 = .ok t0) (h8 : sc.getpgtask 1 = .ok t1) :
    (outcome (Failover (scripted u sc) cl task ns) Cursor.start).1 = .panicked ∧
    calls (outcome (Failover (scripted u sc) cl task ns) Cursor.start).2 =
      [.utilGetPod (task.labels.get u.LABEL_TARGET) ns,
        .getPods (u.LABEL_SERVICE_NAME ++ "=" ++ cl) ns,
        .deleteDeployment (p.labels.get u.LABEL_DEPLOYMENT_NAME) ns,
        .getpgtask task.name task.ns,
        .updatepgtask { t0 with statusMessage := "deleting primary deployment " ++ cl }
          t0.name t0.ns,
        .execToPodThroughAPI ["/opt/cpm/bin/promote.sh"] pod.firstContainer.name pod.name ns
          none,
        .getpgtask t0.name t0.ns,
        .updatepgtask { t1 with statusMessage :=
            "promoting pod " ++ pod.name ++ " target " ++ task.labels.get u.LABEL_TARGET }
          t1.name t1.ns,
        .getPod pod.name ns] := by
  rw [Failover_after_delete u sc cl task ns pod p h1 h2 h3, h5]
  have hn : failoverRelabelResult (Except.ok upod) (sc.updatePod 0) = .panicked := by
    simp [failoverRelabelResult, hnil]
  refine ⟨hn, ?_⟩
  rw [hn, if_neg (by simp)]
  simp only [calls_append, calls_failoverStart, calls_failoverDelete, failoverMiddle,
    calls_promoteEvents, calls_statusEvents_ok sc ns _ _ _ _ h7,
    calls_statusEvents_ok sc ns _ _ _ _ h8, statusTask_ok sc _ _ _ _ h7]
  simp [calls, failoverRelabel, Event.isCall, hnil]

theorem mem_promoteEvents_error (pod : Pod) (i : Nat) (e : Error)
    (h : (sc.execToPodThroughAPI i).2.2 = some e) :
    Event.log .error [e] ∈ promoteEvents sc pod ns i := by
  simp [promoteEvents, h]

/-- The fatal steps of `Failover` when the label map of the re-fetched candidate
is taken into account.  For every script, whatever the promotion command and the
calls on the task answer, `Failover` returns nil if and only if the candidate is
found, the listing answers exactly one pod, the delete succeeds, the re-fetch
succeeds and answers a pod with a label map, and the write succeeds.  When the
promotion command fails, its error is logged, the re-fetch is still made, and the
write after a re-fetch that answered a pod with a label map, and `Failover` ends
as the re-fetch and the write decide, not with the promotion error. -/
theorem Failover_nil_iff_labelled :
    ((outcome (Failover (scripted u sc) cl task ns) Cursor.start).1 = .returned none ↔
      (∃ pod, sc.utilGetPod 0 = .ok pod) ∧ (∃ p, (sc.getPods 0).1 = [p]) ∧
        sc.deleteDeployment 0 = none ∧
        (∃ upod, sc.getPod 0 = .ok upod ∧ upod.labels ≠ .nil) ∧
        sc.updatePod 0 = none) ∧
    (∀ pod p e, sc.utilGetPod 0 = .ok pod → (sc.getPods 0).1 = [p] →
      sc.deleteDeployment 0 = none → (sc.execToPodThroughAPI 0).2.2 = some e →
        Event.log .error [e] ∈
          (outcome (Failover (scripted u sc) cl task ns) Cursor.start).2 ∧
        Event.getPod pod.name ns ∈
          calls (outcome (Failover (scripted u sc) cl task ns) Cursor.start).2 ∧
        (∀ upod, sc.getPod 0 = .ok upod → upod.labels ≠ .nil →
          Event.updatePod (upod.withLabel u.LABEL_SERVICE_NAME cl) ns ∈
            calls (outcome (Failover (scripted u sc) cl task ns) Cursor.start).2) ∧
        (outcome (Failover (scripted u sc) cl task ns) Cursor.start).1 =
          failoverRelabelResult (sc.getPod 0) (sc.updatePod 0)) := by
  constructor
  · cases h1 : sc.utilGetPod 0 with
    | error e => rw [Failover_candidate_error u sc cl task ns e h1]; simp
    | ok pod =>
      rcases h2 : (sc.getPods 0).1 with _ | ⟨p, _ | ⟨q, r⟩⟩
      · rw [Failover_no_primary u sc cl task ns pod h1 h2]; simp
      · cases h3 : sc.deleteDeployment 0 with
        | some e => rw [Failover_delete_error u sc cl task ns pod p e h1 h2 h3]; simp
        | none =>
          rw [Failover_after_delete u sc cl task ns pod p h1 h2 h3]
          cases h4 : sc.getPod 0 with
          | error e => simp [failoverRelabelResult]
          | ok upod =>
            by_cases hl : upod.labels = .nil
            · simp [failoverRelabelResult, hl]
            · simp [failoverRelabelResult, hl]
      · rw [Failover_many_primaries u sc cl task ns pod p q r h1 h2]; simp
  · intro pod p e h1 h2 h3 h4
    rw [Failover_after_delete u sc cl task ns pod p h1 h2 h3]
    refine ⟨?_, ?_, ?_, ?_⟩
    · simp only [List.mem_append, failoverMiddle]
      exact Or.inl (Or.inl (Or.inr (Or.inl (Or.inr
        (mem_promoteEvents_error sc ns pod 0 e h4)))))
    · simp only [calls_append, List.mem_append]
      refine Or.inl (Or.inr ?_)
      cases sc.getPod 0 with
      | error e2 => simp [failoverRelabel, calls, Event.isCall]
      | ok upod =>
        by_cases hl : upod.labels = .nil
        · simp [failoverRelabel, calls, Event.isCall, hl]
        · cases sc.updatePod 0 <;> simp [failoverRelabel, calls, Event.isCall, hl]
    · intro upod h5 hl
      simp only [calls_append, List.mem_append, h5]
      refine Or.inl (Or.inr ?_)
      cases sc.updatePod 0 <;> simp [failoverRelabel, calls, Event.isCall, hl]
    · rfl

/-- Claim C5, at the input where the code departs from it.  The candidate is
found, the listing answers exactly one pod, the delete and the re-fetch succeed
and the write would succeed, so every fatal step succeeds; the re-fetched
candidate has no label map.  Whatever the promotion command and the calls on the
task answer, the statement that sets `service-name` panics: `Failover` does not
return nil (it returns nothing), and the relabel write is not performed, after a
promotion that failed as after one that succeeded. -/
theorem Failover_nil_iff_nil_labels (pod p upod : Pod)
    (h1 : sc.utilGetPod 0 = .ok pod) (h2 : (sc.getPods 0).1 = [p])
    (h3 : sc.deleteDeployment 0 = none)
    (h5 : sc.getPod 0 = .ok upod) (h6 : sc.updatePod 0 = none) (hnil : upod.labels = .nil) :
    ((∃ pod, sc.utilGetPod 0 = .ok pod) ∧ (∃ p, (sc.getPods 0).1 = [p]) ∧
      sc.deleteDeployment 0 = none ∧ (∃ upod, sc.getPod 0 = .ok upod) ∧
      sc.updatePod 0 = none) ∧
    (outcome (Failover (scripted u sc) cl task ns) Cursor.start).1 ≠ .returned none ∧
    (outcome (Failover (scripted u sc) cl task ns) Cursor.start).1 = .panicked ∧
    Event.getPod pod.name ns ∈
      calls (outcome (Failover (scripted u sc) cl task ns) Cursor.start).2 ∧
    (outcome (Failover (scripted u sc) cl task ns) Cursor.start).2.filter
      Event.isUpdatePod = [] := by
  have ho := Failover_after_delete u sc cl task ns pod p h1 h2 h3
  have hn : failoverRelabelResult (sc.getPod 0) (sc.updatePod 0) = .panicked := by
    simp [h5, failoverRelabelResult, hnil]
  rw [hn, if_neg (by simp)] at ho
  refine ⟨⟨⟨pod, h1⟩, ⟨p, h2⟩, h3, ⟨upod, h5⟩, h6⟩, by rw [ho]; simp, by rw [ho], ?_, ?_⟩
  · rw [ho]
    simp only [calls_append, List.mem_append, h5]
    refine Or.inl (Or.inr ?_)
    simp [failoverRelabel, calls, Event.isCall, hnil]
  · rw [ho]
    simp only [List.filter_append, List.append_eq_nil, h5]
    refine ⟨⟨⟨⟨?_, ?_⟩, ?_⟩, ?_⟩, rfl⟩
    · simp [failoverStart, Event.isUpdatePod]
    · simp [failoverDelete, Event.isUpdatePod]
    · unfold failoverMiddle statusEvents promoteEvents
      simp only [List.filter_append, List.append_eq_nil]
      refine ⟨⟨⟨by simp [Event.isUpdatePod], ?_⟩, ⟨by simp [Event.isUpdatePod], ?_⟩⟩,
        ⟨by simp [Event.isUpdatePod], ?_⟩⟩
      · cases sc.getpgtask 0 <;> simp [Event.isUpdatePod]
      · cases (sc.execToPodThroughAPI 0).2.2 <;> simp [Event.isUpdatePod]
      · cases sc.getpgtask 1 <;> simp [Event.isUpdatePod]
    · simp [failoverRelabel, hnil, Event.isUpdatePod]

end FailoverClaims2

/-- Witness of C3: no pod under the selector of the primary. -/
theorem Failover_primary_guard_witness :
    (outcome (Failover (scripted specKeys noPrimaryScript) "c3" failoverTask "ns")
      Cursor.start).1 = .returned (some "could not find primary pod") :=
  ((Failover_primary_guard specKeys noPrimaryScript "c3" failoverTask "ns"
    (Or.inl rfl)).2.2.2.1 podR1 rfl).1 rfl

/-- The failover of the cluster `c3` to `r1` when every call succeeds and `r1`
is re-fetched with its labels. -/
theorem Failover_happy_path_labelled_example :
    (outcome (Failover (scripted specKeys happyScript) "c3" failoverTask "ns")
      Cursor.start).1 = .returned none ∧
    calls (outcome (Failover (scripted specKeys happyScript) "c3" failoverTask "ns")
      Cursor.start).2 =
      [.utilGetPod "r1" "ns",
        .getPods "service-selector=c3" "ns",
        .deleteDeployment "c3-primary" "ns",
        .getpgtask "c3-failover" "ns",
        .updatepgtask { failoverTask with statusMessage := "deleting primary deployment c3" }
          "c3-failover" "ns",
        .execToPodThroughAPI ["/opt/cpm/bin/promote.sh"] "database" "r1" "ns" none,
        .getpgtask "c3-failover" "ns",
        .updatepgtask { failoverTask with statusMessage := "promoting pod r1 target r1" }
          "c3-failover" "ns",
        .getPod "r1" "ns",
        .updatePod (podR1.withLabel "service-selector" "c3") "ns",
        .getpgtask "c3-failover" "ns",
        .updatepgtask { failoverTask with statusMessage :=
            "re-labeling deployment...pod r1was the failover target...failover completed" }
          "c3-failover" "ns"] :=
  Failover_happy_path_labelled specKeys happyScript "c3" failoverTask "ns" podR1 podC3 podR1
    failoverTask failoverTask failoverTask rfl rfl rfl rfl (by decide) rfl rfl rfl rfl

/-- Witness of C4, the failing input: the failover of the cluster `c3` to `r1`
in which every call succeeds and the re-fetch answers `r1` without labels.  The
delete and the promotion are done, the write is not, and `Failover` does not
return. -/
theorem Failover_happy_path_nil_labels_witness :
    (outcome (Failover (scripted specKeys nilRefetchScript) "c3" failoverTask "ns")
      Cursor.start).1 = .panicked ∧
    calls (outcome (Failover (scripted specKeys nilRefetchScript) "c3" failoverTask "ns")
      Cursor.start).2 =
      [.utilGetPod "r1" "ns",
        .getPods "service-selector=c3" "ns",
        .deleteDeployment "c3-primary" "ns",
        .getpgtask "c3-failover" "ns",
        .updatepgtask { failoverTask with statusMessage := "deleting primary deployment c3" }
          "c3-failover" "ns",
        .execToPodThroughAPI ["/opt/cpm/bin/promote.sh"] "database" "r1" "ns" none,
        .getpgtask "c3-failover" "ns",
        .updatepgtask { failoverTask with statusMessage := "promoting pod r1 target r1" }
          "c3-failover" "ns",
        .getPod "r1" "ns"] :=
  Failover_happy_path_nil_labels specKeys nilRefetchScript "c3" failoverTask "ns" podR1 podC3
    podR1.unlabelled failoverTask failoverTask rfl rfl rfl rfl rfl rfl rfl

/-- The promotion command fails, `r1` is re-fetched with its labels, and
`Failover` returns nil. -/
theorem Failover_nil_iff_labelled_example :
    Event.log .error ["exit 1"] ∈
      (outcome (Failover (scripted specKeys promoteFailsScript) "c3" failoverTask "ns")
        Cursor.start).2 ∧
    Event.getPod "r1" "ns" ∈
      calls (outcome (Failover (scripted specKeys promoteFailsScript) "c3" failoverTask "ns")
        Cursor.start).2 ∧
    Event.updatePod (podR1.withLabel "service-selector" "c3") "ns" ∈
      calls (outcome (Failover (scripted specKeys promoteFailsScript) "c3" failoverTask "ns")
        Cursor.start).2 ∧
    (outcome (Failover (scripted specKeys promoteFailsScript) "c3" failoverTask "ns")
      Cursor.start).1 = .returned none :=
  have h := (Failover_nil_iff_labelled specKeys promoteFailsScript "c3" failoverTask "ns").2
    podR1 podC3 "exit 1" rfl rfl rfl rfl
  ⟨h.1, h.2.1, h.2.2.1 podR1 rfl (by decide), h.2.2.2⟩

/-- Witness of C5, the failing input: the failover of the cluster `c3` to `r1`
in which the promotion command fails, every other call succeeds, and the
re-fetch answers `r1` without labels.  Every fatal step succeeds, `Failover`
does not return nil, and no pod is written. -/
theorem Failover_nil_iff_nil_labels_witness :
    (promoteFailsNilScript.execToPodThroughAPI 0).2.2 = some "exit 1" ∧
    promoteFailsNilScript.updatePod 0 = none ∧
    (outcome (Failover (scripted specKeys promoteFailsNilScript) "c3" failoverTask "ns")
      Cursor.start).1 ≠ .returned none ∧
    (outcome (Failover (scripted specKeys promoteFailsNilScript) "c3" failoverTask "ns")
      Cursor.start).1 = .panicked ∧
    (outcome (Failover (scripted specKeys promoteFailsNilScript) "c3" failoverTask "ns")
      Cursor.start).2.filter Event.isUpdatePod = [] :=
  have h := Failover_nil_iff_nil_labels specKeys promoteFailsNilScript "c3" failoverTask "ns"
    podR1 podC3 podR1.unlabelled rfl rfl rfl rfl rfl rfl
  ⟨rfl, rfl, h.2.1, h.2.2.1, h.2.2.2.2⟩

/-- Counterexample to claim C9 as stated: the cluster `c1` has one pod that
carries `service-name` equal to `c1`; a second pod with the role `true` and the
cluster `c1` is added, and after its role labeling two pods carry it. -/
theorem checkPostgresPods_second_primary_counterexample :
    atMostOnePrimary specKeys "c1" "ns" twoPrimaries ∧
    ¬ atMostOnePrimary specKeys "c1" "ns"
      (stateAfter (checkPostgresPods (kube specKeys) ⟨"ns"⟩ podC1b) twoPrimaries) := by
  decide

theorem Ensures.pure {pre : σ → Prop} {post : α → σ → Prop} {C : σ → Prop} (a : α)
    (h : ∀ s, pre s → post a s) : Ensures pre (pure a : Run σ α) post C :=
  fun w hw => h w.state hw

theorem Ensures.bind {pre : σ → Prop} {M : α → σ → Prop} {post : β → σ → Prop}
    {C : σ → Prop} {x : Run σ α} {f : α → Run σ β} (hx : Ensures pre x M C)
    (hf : ∀ a, Ensures (M a) (f a) post C) : Ensures pre (x >>= f) post C := by
  intro w hw
  have h1 := hx w hw
  rw [Run.bind_apply]
  cases hr : (x w).1 with
  | returned a =>
    simp only [hr] at h1 ⊢
    exact hf a (x w).2 h1
  | panicked =>
    simp only [hr] at h1 ⊢
    exact h1

theorem Ensures.emit {pre : σ → Prop} {post : Unit → σ → Prop} {C : σ → Prop} (e : Event)
    (h : ∀ s, pre s → post () s) : Ensures pre (emit e) post C :=
  fun w hw => h w.state hw

theorem Ensures.call {pre : σ → Prop} {post : α → σ → Prop} {C : σ → Prop} (e : Event)
    (f : σ → α × σ) (h : ∀ s, pre s → post (f s).1 (f s).2) : Ensures pre (call e f) post C :=
  fun w hw => h w.state hw

theorem Ensures.assignLabel {pre : σ → Prop} {post : Pod → σ → Prop} {C : σ → Prop}
    (pod : Pod) (k v : String)
    (h1 : pod.labels ≠ .nil → ∀ s, pre s → post (pod.withLabel k v) s)
    (h2 : pod.labels = .nil → ∀ s, pre s → C s) :
    Ensures pre (assignLabel pod k v : Run σ Pod) post C := by
  intro w hw
  by_cases hl : pod.labels = .nil
  · rw [assignLabel_nil pod k v w hl]
    exact h2 hl w.state hw
  · rw [assignLabel_apply pod k v w hl]
    exact h1 hl w.state hw

theorem Ensures.weaken {pre pre2 : σ → Prop} {post post2 : α → σ → Prop} {C : σ → Prop}
    {x : Run σ α} (hx : Ensures pre x post C) (h1 : ∀ s, pre2 s → pre s)
    (h2 : ∀ a s, post a s → post2 a s) : Ensures pre2 x post2 C := by
  intro w hw
  have h := hx w (h1 _ hw)
  cases hr : (x w).1 with
  | returned a =>
    simp only [hr] at h ⊢
    exact h2 _ _ h
  | panicked =>
    simp only [hr] at h ⊢
    exact h

theorem Kube.next_pods (s : Kube) : s.next.2.pods = s.pods := by
  unfold Kube.next
  cases s.faults <;> rfl

theorem Kube.getPod_pods (name ns : String) (s : Kube) :
    (Kube.getPod name ns s).2.pods = s.pods := by
  unfold Kube.getPod
  split_ifs
  · exact Kube.next_pods s
  · cases s.pods.find? (Pod.isNamed name ns) <;> exact Kube.next_pods s

theorem Kube.getPod_ok (name ns : String) (s : Kube) (p : Pod)
    (h : (Kube.getPod name ns s).1 = .ok p) :
    s.pods.find? (Pod.isNamed name ns) = some p := by
  unfold Kube.getPod at h
  cases hf : s.pods.find? (Pod.isNamed name ns) with
  | none =>
    rw [hf] at h
    by_cases hn : s.next.1 = true
    · rw [if_pos hn] at h; cases h
    · rw [if_neg hn] at h; cases h
  | some q =>
    rw [hf] at h
    by_cases hn : s.next.1 = true
    · rw [if_pos hn] at h; cases h
    · rw [if_neg hn] at h; cases h; rfl

theorem Kube.updatePod_pods (pod : Pod) (ns : String) (s : Kube) :
    ((Kube.updatePod pod ns s).1 = none ∧ pod.ns = ns ∧
      (Kube.updatePod pod ns s).2.pods = replaceFirst (Pod.isNamed pod.name ns) pod s.pods) ∨
    ((Kube.updatePod pod ns s).1 ≠ none ∧ (Kube.updatePod pod ns s).2.pods = s.pods) := by
  unfold Kube.updatePod
  split_ifs with h1 h2
  · exact Or.inr ⟨by simp, Kube.next_pods s⟩
  · exact Or.inl ⟨rfl, h2.1, rfl⟩
  · exact Or.inr ⟨by simp, Kube.next_pods s⟩

theorem Kube.getPods_pods (selector ns : String) (s : Kube) :
    (Kube.getPods selector ns s).2.pods = s.pods := by
  unfold Kube.getPods
  split_ifs <;> exact Kube.next_pods s

theorem Kube.getPods_list (selector ns : String) (s : Kube) :
    (Kube.getPods selector ns s).1.1 = [] ∨
      (Kube.getPods selector ns s).1.1 =
        s.pods.filter fun p => p.ns == ns && p.matchesSelector selector := by
  unfold Kube.getPods
  split_ifs
  · exact Or.inl rfl
  · exact Or.inr rfl

theorem Kube.deleteDeployment_pods (u : Util) (name ns : String) (s : Kube) :
    ((Kube.deleteDeployment u name ns s).1 = none ∧
      (Kube.deleteDeployment u name ns s).2.pods =
        s.pods.filter fun p => !(p.ns == ns && p.labels.get u.LABEL_DEPLOYMENT_NAME == name)) ∨
    ((Kube.deleteDeployment u name ns s).1 ≠ none ∧
      (Kube.deleteDeployment u name ns s).2.pods = s.pods) := by
  unfold Kube.deleteDeployment
  split_ifs
  · exact Or.inr ⟨by simp, Kube.next_pods s⟩
  · exact Or.inl ⟨rfl, rfl⟩
  · exact Or.inr ⟨by simp, Kube.next_pods s⟩

theorem Kube.execToPodThroughAPI_pods (s : Kube) :
    (Kube.execToPodThroughAPI s).2.pods = s.pods := by
  unfold Kube.execToPodThroughAPI
  split_ifs <;> exact Kube.next_pods s

theorem Kube.getpgtask_pods (name ns : String) (s : Kube) :
    (Kube.getpgtask name ns s).2.pods = s.pods := by
  unfold Kube.getpgtask
  split_ifs
  · exact Kube.next_pods s
  · cases s.tasks.find? (Pgtask.isNamed name ns) <;> exact Kube.next_pods s

theorem Kube.updatepgtask_pods (task : Pgtask) (name ns : String) (s : Kube) :
    (Kube.updatepgtask task name ns s).2.pods = s.pods := by
  unfold Kube.updatepgtask
  split_ifs <;> exact Kube.next_pods s

theorem updateFailoverStatus_kube_frame (u : Util) (I : List Pod → Prop) (C : Kube → Prop)
    (task : Pgtask) (ns cl msg : String) :
    Ensures (fun s : Kube => I s.pods) (updateFailoverStatus (kube u) task ns cl msg)
      (fun _ s => I s.pods) C := by
  unfold updateFailoverStatus
  refine Ensures.bind (M := fun _ s => I s.pods) (Ensures.emit _ fun _ h => h) fun _ => ?_
  refine Ensures.bind (M := fun _ s => I s.pods)
    (Ensures.call _ _ fun s h => by
      show I (Kube.getpgtask _ _ s).2.pods
      rw [Kube.getpgtask_pods]; exact h) fun r => ?_
  cases r with
  | error e => exact Ensures.pure _ fun _ h => h
  | ok fetched =>
    exact Ensures.bind (M := fun _ s => I s.pods)
      (Ensures.call _ _ fun s h => by
        show I (Kube.updatepgtask _ _ _ s).2.pods
        rw [Kube.updatepgtask_pods]; exact h) fun _ => Ensures.pure _ fun _ h => h

theorem promote_kube_frame (u : Util) (I : List Pod → Prop) (C : Kube → Prop) (pod : Pod)
    (ns : String) :
    Ensures (fun s : Kube => I s.pods) (promote (kube u) pod ns) (fun _ s => I s.pods) C := by
  unfold promote
  refine Ensures.bind (M := fun _ s => I s.pods) (Ensures.emit _ fun _ h => h) fun _ => ?_
  refine Ensures.bind (M := fun _ s => I s.pods)
    (Ensures.call _ _ fun s h => by
      show I (Kube.execToPodThroughAPI s).2.pods
      rw [Kube.execToPodThroughAPI_pods]; exact h) fun r => ?_
  refine Ensures.bind (M := fun _ s => I s.pods) (Ensures.emit _ fun _ h => h) fun _ => ?_
  cases r.2.2 with
  | some err =>
    exact Ensures.bind (M := fun _ s => I s.pods) (Ensures.emit _ fun _ h => h) fun _ =>
      Ensures.pure _ fun _ h => h
  | none => exact Ensures.pure _ fun _ h => h

theorem countP_replaceFirst_le (c p : Pod → Bool) (new : Pod) (l : List Pod) :
    (replaceFirst p new l).countP c ≤ l.countP c + (if c new then 1 else 0) := by
  induction l with
  | nil => simp [replaceFirst]
  | cons a l ih =>
    unfold replaceFirst
    by_cases h : p a = true
    · rw [if_pos h, List.countP_cons, List.countP_cons]
      omega
    · rw [if_neg h, List.countP_cons, List.countP_cons]
      omega

theorem countP_filter_le (c q : Pod → Bool) (l : List Pod) :
    (l.filter q).countP c ≤ l.countP c :=
  List.Sublist.countP_le _ (List.filter_sublist l)

theorem carries_withLabel (u : Util) (cl cl2 ns2 : String) (p : Pod) :
    carries u cl2 ns2 (p.withLabel u.LABEL_SERVICE_NAME cl) = true ↔
      p.ns = ns2 ∧ cl = cl2 := by
  have h : (p.withLabel u.LABEL_SERVICE_NAME cl).ns = p.ns := rfl
  simp [carries, Pod.withLabel_lookup_self, h]

theorem mem_of_lookup (m : List (String × String)) (k v : String)
    (h : m.lookup k = some v) : (k, v) ∈ m := by
  induction m with
  | nil => simp [List.lookup] at h
  | cons e l ih =>
    rw [show e = (e.1, e.2) from rfl, List.lookup_cons] at h
    by_cases he : (k == e.1) = true
    · rw [he] at h
      simp only [Option.some.injEq] at h
      rw [beq_iff_eq] at he
      rw [List.mem_cons]
      left
      rw [he, ← h]
    · have he2 : (k == e.1) = false := by simpa using he
      rw [he2] at h
      exact List.mem_cons_of_mem _ (ih h)

theorem matchesSelector_of_carries (u : Util) (cl ns : String) (p : Pod)
    (h : carries u cl ns p = true) :
    (p.ns == ns && p.matchesSelector (u.LABEL_SERVICE_NAME ++ "=" ++ cl)) = true := by
  simp only [carries, Bool.and_eq_true, beq_iff_eq] at h
  have hm : (u.LABEL_SERVICE_NAME, cl) ∈ p.labels.entries := mem_of_lookup _ _ _ h.2
  simp only [Bool.and_eq_true, beq_iff_eq, Pod.matchesSelector, List.any_eq_true]
  exact ⟨h.1, (u.LABEL_SERVICE_NAME, cl), hm, by simp⟩

theorem deletePrimary_kube (u : Util) (C : Kube → Prop) (cl ns cl0 ns0 : String) :
    Ensures (fun s : Kube => s.pods.countP (carries u cl ns) ≤ 1)
      (deletePrimary (kube u) ns0 cl0)
      (fun err s => s.pods.countP (carries u cl ns) ≤ 1 ∧
        (err = none → s.pods.countP (carries u cl0 ns0) = 0)) C := by
  intro w hw
  have hp := Kube.getPods_pods (u.LABEL_SERVICE_NAME ++ "=" ++ cl0) ns0 w.state
  have hl := Kube.getPods_list (u.LABEL_SERVICE_NAME ++ "=" ++ cl0) ns0 w.state
  simp only [deletePrimary, Run.bind_apply, call_apply]
  rcases h : ((kube u).getPods ((kube u).util.LABEL_SERVICE_NAME ++ "=" ++ cl0) ns0
      w.state).1.1 with _ | ⟨p, _ | ⟨q, r⟩⟩
  · simp only [Run.bind_apply, emit_apply, Run.pure_apply]
    exact ⟨by rw [show ((kube u).getPods ((kube u).util.LABEL_SERVICE_NAME ++ "=" ++ cl0) ns0
      w.state).2.pods = w.state.pods from hp]; exact hw, by simp⟩
  · simp only [Run.bind_apply, emit_apply, call_apply]
    have hd := Kube.deleteDeployment_pods u (p.labels.get u.LABEL_DEPLOYMENT_NAME) ns0
      (Kube.getPods (u.LABEL_SERVICE_NAME ++ "=" ++ cl0) ns0 w.state).2
    rw [hp] at hd
    rcases hd with ⟨h1, h2⟩ | ⟨h1, h2⟩
    · refine ⟨?_, fun _ => ?_⟩
      · show (Kube.deleteDeployment u (p.labels.get u.LABEL_DEPLOYMENT_NAME) ns0
          (Kube.getPods (u.LABEL_SERVICE_NAME ++ "=" ++ cl0) ns0 w.state).2).2.pods.countP _ ≤ 1
        rw [h2]
        exact le_trans (countP_filter_le _ _ _) hw
      · show (Kube.deleteDeployment u (p.labels.get u.LABEL_DEPLOYMENT_NAME) ns0
          (Kube.getPods (u.LABEL_SERVICE_NAME ++ "=" ++ cl0) ns0 w.state).2).2.pods.countP _ = 0
        rw [h2, List.countP_eq_zero]
        intro q hq hc
        rw [List.mem_filter] at hq
        have hsel := matchesSelector_of_carries u cl0 ns0 q hc
        have hfil : (Kube.getPods (u.LABEL_SERVICE_NAME ++ "=" ++ cl0) ns0 w.state).1.1 =
            [p] := h
        rcases hl with hl | hl
        · rw [hl] at hfil; cases hfil
        · rw [hl] at hfil
          have hq2 : q ∈ [p] := by
            rw [← hfil, List.mem_filter]
            exact ⟨hq.1, hsel⟩
          rw [List.mem_singleton] at hq2
          subst hq2
          have hns : q.ns = ns0 := by
            simp only [carries, Bool.and_eq_true, beq_iff_eq] at hc
            exact hc.1
          have := hq.2
          simp [hns] at this
    · refine ⟨?_, fun hn => absurd hn h1⟩
      show (Kube.deleteDeployment u (p.labels.get u.LABEL_DEPLOYMENT_NAME) ns0
          (Kube.getPods (u.LABEL_SERVICE_NAME ++ "=" ++ cl0) ns0 w.state).2).2.pods.countP _ ≤ 1
      rw [h2]
      exact hw
  · simp only [Run.bind_apply, emit_apply, Run.pure_apply]
    exact ⟨by rw [show ((kube u).getPods ((kube u).util.LABEL_SERVICE_NAME ++ "=" ++ cl0) ns0
      w.state).2.pods = w.state.pods from hp]; exact hw, by simp⟩

theorem Failover_kube (u : Util) (cl ns cl0 : String) (task : Pgtask) (ns0 : String) :
    Ensures (fun s : Kube => s.pods.countP (carries u cl ns) ≤ 1)
      (Failover (kube u) cl0 task ns0)
      (fun _ s => s.pods.countP (carries u cl ns) ≤ 1)
      (fun s => s.pods.countP (carries u cl ns) ≤ 1) := by
  unfold Failover
  refine Ensures.bind (M := fun _ s => s.pods.countP (carries u cl ns) ≤ 1)
    (Ensures.emit _ fun _ h => h) fun _ => ?_
  refine Ensures.bind (M := fun _ s => s.pods.countP (carries u cl ns) ≤ 1)
    (Ensures.call _ _ fun s h => by
      show (Kube.getPod _ _ s).2.pods.countP _ ≤ 1
      rw [Kube.getPod_pods]; exact h) fun r => ?_
  cases r with
  | error e =>
    exact Ensures.bind (M := fun _ s => s.pods.countP (carries u cl ns) ≤ 1)
      (Ensures.emit _ fun _ h => h) fun _ => Ensures.pure _ fun _ h => h
  | ok pod =>
    refine Ensures.bind (M := fun _ s => s.pods.countP (carries u cl ns) ≤ 1)
      (Ensures.emit _ fun _ h => h) fun _ => ?_
    refine Ensures.bind (deletePrimary_kube u _ cl ns cl0 ns0) fun err => ?_
    cases err with
    | some e =>
      exact Ensures.bind (M := fun _ s => s.pods.countP (carries u cl ns) ≤ 1)
        (Ensures.emit _ fun _ h => h.1) fun _ => Ensures.pure _ fun _ h => h
    | none =>
      refine Ensures.bind
        (M := fun _ s => s.pods.countP (carries u cl ns) ≤ 1 ∧
          s.pods.countP (carries u cl0 ns0) = 0)
        (Ensures.weaken (updateFailoverStatus_kube_frame u
          (fun l => l.countP (carries u cl ns) ≤ 1 ∧ l.countP (carries u cl0 ns0) = 0) _ _ _ _ _)
          (fun _ h => ⟨h.1, h.2 rfl⟩) fun _ _ h => h) fun task1 => ?_
      refine Ensures.bind (promote_kube_frame u
        (fun l => l.countP (carries u cl ns) ≤ 1 ∧ l.countP (carries u cl0 ns0) = 0) _ _ _)
        fun _ => ?_
      refine Ensures.bind (updateFailoverStatus_kube_frame u
        (fun l => l.countP (carries u cl ns) ≤ 1 ∧ l.countP (carries u cl0 ns0) = 0) _ _ _ _ _)
        fun task2 => ?_
      refine Ensures.bind
        (M := fun r s => (s.pods.countP (carries u cl ns) ≤ 1 ∧
          s.pods.countP (carries u cl0 ns0) = 0) ∧ ∀ upod, r = .ok upod → upod.ns = ns0)
        (Ensures.call _ _ fun s h => by
          refine ⟨?_, fun upod hr => ?_⟩
          · show (Kube.getPod _ _ s).2.pods.countP _ ≤ 1 ∧ (Kube.getPod _ _ s).2.pods.countP _ = 0
            rw [Kube.getPod_pods]; exact h
          · have hf := List.find?_some (Kube.getPod_ok _ _ s upod hr)
            simp only [Pod.isNamed, Bool.and_eq_true, beq_iff_eq] at hf
            exact hf.2) fun r => ?_
      cases r with
      | error e =>
        exact Ensures.bind (M := fun _ s => s.pods.countP (carries u cl ns) ≤ 1)
          (Ensures.emit _ fun _ h => h.1.1) fun _ =>
            Ensures.bind (M := fun _ s => s.pods.countP (carries u cl ns) ≤ 1)
              (Ensures.emit _ fun _ h => h) fun _ => Ensures.pure _ fun _ h => h
      | ok upod =>
        refine Ensures.bind
          (M := fun written s => ((s.pods.countP (carries u cl ns) ≤ 1 ∧
            s.pods.countP (carries u cl0 ns0) = 0) ∧ upod.ns = ns0) ∧
            written = upod.withLabel u.LABEL_SERVICE_NAME cl0)
          (Ensures.assignLabel _ _ _ (fun _ _ h => ⟨⟨h.1, h.2 upod rfl⟩, rfl⟩)
            (fun _ _ h => h.1.1)) fun written => ?_
        refine Ensures.bind (M := fun _ s => s.pods.countP (carries u cl ns) ≤ 1)
          (Ensures.call _ _ fun s h => ?_) fun err => ?_
        · obtain ⟨⟨hI, hns⟩, hw⟩ := h
          subst hw
          rcases Kube.updatePod_pods (upod.withLabel u.LABEL_SERVICE_NAME cl0) ns0 s with
            ⟨_, _, h2⟩ | ⟨_, h2⟩
          · show (Kube.updatePod (upod.withLabel u.LABEL_SERVICE_NAME cl0) ns0 s).2.pods.countP _ ≤ 1
            rw [h2]
            refine le_trans (countP_replaceFirst_le _ _ _ _) ?_
            by_cases hc : carries u cl ns (upod.withLabel u.LABEL_SERVICE_NAME cl0) = true
            · rw [if_pos hc]
              rw [carries_withLabel] at hc
              rw [← hc.1, ← hc.2, hns, hI.2]
            · rw [if_neg hc]
              exact hI.1
          · show (Kube.updatePod (upod.withLabel u.LABEL_SERVICE_NAME cl0) ns0 s).2.pods.countP _ ≤ 1
            rw [h2]
            exact hI.1
        · cases err with
          | some e =>
            exact Ensures.bind (M := fun _ s => s.pods.countP (carries u cl ns) ≤ 1)
              (Ensures.emit _ fun _ h => h) fun _ =>
                Ensures.bind (M := fun _ s => s.pods.countP (carries u cl ns) ≤ 1)
                  (Ensures.emit _ fun _ h => h) fun _ => Ensures.pure _ fun _ h => h
          | none =>
            exact Ensures.bind (updateFailoverStatus_kube_frame u
              (fun l => l.countP (carries u cl ns) ≤ 1) _ _ _ _ _)
              fun _ => Ensures.pure _ fun _ h => h

theorem countP_replaceFirst_unique (c : Pod → Bool) (name ns : String) (new : Pod)
    (l : List Pod) (hnd : (l.map fun p => (p.ns, p.name)).Nodup)
    (hH : ∀ q ∈ l, c q = true → Pod.isNamed name ns q = true) :
    (replaceFirst (Pod.isNamed name ns) new l).countP c ≤ 1 := by
  induction l with
  | nil => simp [replaceFirst]
  | cons a l ih =>
    rw [List.map_cons, List.nodup_cons] at hnd
    unfold replaceFirst
    by_cases h : Pod.isNamed name ns a = true
    · rw [if_pos h, List.countP_cons]
      have hz : l.countP c = 0 := by
        rw [List.countP_eq_zero]
        intro q hq hc
        have hq2 := hH q (List.mem_cons_of_mem _ hq) hc
        simp only [Pod.isNamed, Bool.and_eq_true, beq_iff_eq] at h hq2
        apply hnd.1
        rw [List.mem_map]
        exact ⟨q, hq, by rw [hq2.1, hq2.2, h.1, h.2]⟩
      rw [hz]
      split_ifs <;> omega
    · rw [if_neg h, List.countP_cons]
      have hca : c a = false := by
        by_contra hca
        exact h (hH a (List.mem_cons_self _ _) (by simpa using hca))
      rw [hca]
      simpa using ih hnd.2 fun q hq hc => hH q (List.mem_cons_of_mem _ hq) hc

theorem checkPostgresPodsLoop_kube (u : Util) (cl ns : String) (c : PodController)
    (newpod : Pod) (n : Nat) :
    Ensures
      (fun s : Kube => s.pods.countP (carries u cl ns) ≤ 1 ∧
        (serviceName u newpod = cl → c.ns = ns →
          (s.pods.map fun p => (p.ns, p.name)).Nodup ∧
          ∀ q ∈ s.pods, carries u cl ns q = true → q.name = newpod.name))
      (checkPostgresPodsLoop (kube u) c newpod n)
      (fun _ s => s.pods.countP (carries u cl ns) ≤ 1)
      (fun s => s.pods.countP (carries u cl ns) ≤ 1) := by
  induction n with
  | zero => exact Ensures.pure _ fun _ h => h.1
  | succ n ih =>
    unfold checkPostgresPodsLoop
    by_cases hrole : newpod.labels.get (kube u).util.LABEL_PRIMARY = "true" ∨
        newpod.labels.get (kube u).util.LABEL_PRIMARY = "false"
    · rw [if_pos hrole]
      refine Ensures.bind
        (M := fun r s => (s.pods.countP (carries u cl ns) ≤ 1 ∧
          (serviceName u newpod = cl → c.ns = ns →
            (s.pods.map fun p => (p.ns, p.name)).Nodup ∧
            ∀ q ∈ s.pods, carries u cl ns q = true → q.name = newpod.name)) ∧
          ∀ fetched, r = .ok fetched → fetched.name = newpod.name ∧ fetched.ns = c.ns)
        (Ensures.call _ _ fun s h => by
          refine ⟨?_, fun fetched hr => ?_⟩
          · show (Kube.getPod _ _ s).2.pods.countP _ ≤ 1 ∧
              (serviceName u newpod = cl → c.ns = ns →
                ((Kube.getPod _ _ s).2.pods.map fun p => (p.ns, p.name)).Nodup ∧
                ∀ q ∈ (Kube.getPod _ _ s).2.pods, _)
            rw [Kube.getPod_pods]; exact h
          · have hf := List.find?_some (Kube.getPod_ok _ _ s fetched hr)
            simpa [Pod.isNamed] using hf) fun r => ?_
      cases r with
      | error e =>
        exact Ensures.bind (M := fun _ s => s.pods.countP (carries u cl ns) ≤ 1)
          (Ensures.emit _ fun _ h => h.1.1) fun _ => Ensures.emit _ fun _ h => h
      | ok fetched =>
        refine Ensures.bind
          (M := fun pod s => ((s.pods.countP (carries u cl ns) ≤ 1 ∧
            (serviceName u newpod = cl → c.ns = ns →
              (s.pods.map fun p => (p.ns, p.name)).Nodup ∧
              ∀ q ∈ s.pods, carries u cl ns q = true → q.name = newpod.name)) ∧
            fetched.name = newpod.name ∧ fetched.ns = c.ns) ∧
            pod = fetched.withLabel u.LABEL_SERVICE_NAME (serviceName u newpod))
          (fun w hw => by
            by_cases hl : fetched.labels = .nil
            · rw [relabelled_nil (kube u) newpod fetched w hrole hl]
              exact hw.1.1
            · rw [relabelled_apply (kube u) newpod fetched w hrole hl]
              exact ⟨⟨hw.1, hw.2 fetched rfl⟩, rfl⟩) fun pod => ?_
        refine Ensures.bind
          (M := fun err s => (err = none → s.pods.countP (carries u cl ns) ≤ 1) ∧
            (err ≠ none → s.pods.countP (carries u cl ns) ≤ 1 ∧
              (serviceName u newpod = cl → c.ns = ns →
                (s.pods.map fun p => (p.ns, p.name)).Nodup ∧
                ∀ q ∈ s.pods, carries u cl ns q = true → q.name = newpod.name)))
          (Ensures.call _ _ fun s h => ?_) fun err => ?_
        · obtain ⟨⟨hJ, hname, hns⟩, hpod⟩ := h
          subst hpod
          rcases Kube.updatePod_pods
            (fetched.withLabel u.LABEL_SERVICE_NAME (serviceName u newpod)) c.ns s with
            ⟨h1, _, h2⟩ | ⟨h1, h2⟩
          · refine ⟨fun _ => ?_, fun hn => absurd h1 hn⟩
            show (Kube.updatePod
              (fetched.withLabel u.LABEL_SERVICE_NAME (serviceName u newpod)) c.ns
                s).2.pods.countP _ ≤ 1
            rw [h2]
            by_cases hc : carries u cl ns
                (fetched.withLabel u.LABEL_SERVICE_NAME (serviceName u newpod)) = true
            · rw [carries_withLabel] at hc
              have hK := hJ.2 hc.2 (by rw [← hns, hc.1])
              refine countP_replaceFirst_unique _ _ _ _ _ hK.1 fun q hq hcq => ?_
              have hq2 := hK.2 q hq hcq
              simp only [carries, Bool.and_eq_true, beq_iff_eq] at hcq
              simp only [Pod.isNamed, Bool.and_eq_true, beq_iff_eq]
              exact ⟨by rw [hq2]; exact hname.symm, by rw [hcq.1, ← hc.1, hns]⟩
            · refine le_trans (countP_replaceFirst_le _ _ _ _) ?_
              rw [if_neg hc]
              exact hJ.1
          · refine ⟨fun hn => absurd hn h1, fun _ => ?_⟩
            have h3 : ((kube u).updatePod
              (fetched.withLabel u.LABEL_SERVICE_NAME (serviceName u newpod)) c.ns
                s).2.pods = s.pods := h2
            show ((kube u).updatePod
              (fetched.withLabel u.LABEL_SERVICE_NAME (serviceName u newpod)) c.ns
                s).2.pods.countP _ ≤ 1 ∧
              (serviceName u newpod = cl → c.ns = ns →
                (((kube u).updatePod
                  (fetched.withLabel u.LABEL_SERVICE_NAME (serviceName u newpod)) c.ns
                    s).2.pods.map fun p => (p.ns, p.name)).Nodup ∧
                ∀ q ∈ ((kube u).updatePod
                  (fetched.withLabel u.LABEL_SERVICE_NAME (serviceName u newpod)) c.ns
                    s).2.pods, _)
            rw [h3]
            exact hJ
        · cases err with
          | none => exact Ensures.pure _ fun _ h => h.1 rfl
          | some e =>
            refine Ensures.bind (M := fun _ s => s.pods.countP (carries u cl ns) ≤ 1 ∧
              (serviceName u newpod = cl → c.ns = ns →
                (s.pods.map fun p => (p.ns, p.name)).Nodup ∧
                ∀ q ∈ s.pods, carries u cl ns q = true → q.name = newpod.name))
              (Ensures.emit _ fun _ h => h.2 (by simp)) fun _ => ?_
            exact Ensures.bind (M := fun _ s => s.pods.countP (carries u cl ns) ≤ 1 ∧
              (serviceName u newpod = cl → c.ns = ns →
                (s.pods.map fun p => (p.ns, p.name)).Nodup ∧
                ∀ q ∈ s.pods, carries u cl ns q = true → q.name = newpod.name))
              (Ensures.emit _ fun _ h => h) fun _ => ih
    · rw [if_neg hrole]
      exact ih

theorem append_replica_ne (x : String) : x ++ "-replica" ≠ x := by
  intro h
  have h2 := congrArg String.length h
  rw [String.length_append] at h2
  have h3 : "-replica".length = 8 := by decide
  omega

theorem stateAfter_of_ensures {I : Kube → Prop} {x : Run Kube α} {post : α → Kube → Prop}
    (hx : Ensures I x post I) (hp : ∀ a s, post a s → I s) (s : Kube) (hs : I s) :
    I (stateAfter x s) := by
  have h := hx ⟨s, []⟩ hs
  unfold stateAfter
  cases hr : (x ⟨s, []⟩).1 with
  | returned a =>
    simp only [hr] at h
    exact hp _ _ h
  | panicked =>
    simp only [hr] at h
    exact h

/-- Claim C9, as amended.  On the platform modelled from the spec, where the
delete of a workload removes at once the instances the workload owns, from a
state in which at most one instance of the namespace carries `service-name`
equal to the bare name of the cluster: the state after any run of `Failover`
satisfies it too, whatever calls fail and also when the run panics.  The role
labeling of an added pod with a role other than `true` and `false` leaves the
state as it is.  The role labeling of a pod added with the role `false` to this
cluster keeps the invariant of the cluster, whatever the other instances carry.
In general the role labeling of an added pod keeps the invariant whenever the
value it writes is not the name of the cluster or the controller is in another
namespace; and when it writes the name of the cluster in this namespace, it
keeps it provided the names of the instances are unique in their namespace and
the name of the cluster is not carried already by an instance of another name. -/
theorem atMostOnePrimary_preserved (u : Util) (s : Kube) (cl ns : String)
    (h : atMostOnePrimary u cl ns s) :
    (∀ (cl0 : String) (task : Pgtask) (ns0 : String),
      atMostOnePrimary u cl ns (stateAfter (Failover (kube u) cl0 task ns0) s)) ∧
    (∀ (c : PodController) (newpod : Pod),
      newpod.labels.get u.LABEL_PRIMARY ≠ "true" →
      newpod.labels.get u.LABEL_PRIMARY ≠ "false" →
        stateAfter (checkPostgresPods (kube u) c newpod) s = s) ∧
    (∀ (c : PodController) (newpod : Pod),
      newpod.labels.get u.LABEL_PRIMARY = "false" →
      newpod.labels.get u.LABEL_PG_CLUSTER = cl →
        atMostOnePrimary u cl ns (stateAfter (checkPostgresPods (kube u) c newpod) s)) ∧
    (∀ (c : PodController) (newpod : Pod),
      ((if newpod.labels.get u.LABEL_PRIMARY = "true" then
            newpod.labels.get u.LABEL_PG_CLUSTER
          else newpod.labels.get u.LABEL_PG_CLUSTER ++ "-replica") = cl →
        c.ns = ns →
          (s.pods.map fun p => (p.ns, p.name)).Nodup ∧
          ∀ q ∈ s.pods, carries u cl ns q = true → q.name = newpod.name) →
      atMostOnePrimary u cl ns (stateAfter (checkPostgresPods (kube u) c newpod) s)) := by
  have key : ∀ (c : PodController) (newpod : Pod),
      (serviceName u newpod = cl → c.ns = ns →
        (s.pods.map fun p => (p.ns, p.name)).Nodup ∧
        ∀ q ∈ s.pods, carries u cl ns q = true → q.name = newpod.name) →
      atMostOnePrimary u cl ns (stateAfter (checkPostgresPods (kube u) c newpod) s) := by
    intro c newpod hH
    have hx := checkPostgresPodsLoop_kube u cl ns c newpod 8 ⟨s, []⟩ ⟨h, hH⟩
    unfold atMostOnePrimary stateAfter checkPostgresPods
    cases hr : (checkPostgresPodsLoop (kube u) c newpod 8 ⟨s, []⟩).1 with
    | returned a =>
      simp only [hr] at hx
      exact hx
    | panicked =>
      simp only [hr] at hx
      exact hx
  refine ⟨?_, ?_, ?_, ?_⟩
  · intro cl0 task ns0
    exact stateAfter_of_ensures (I := fun s => s.pods.countP (carries u cl ns) ≤ 1)
      (Failover_kube u cl ns cl0 task ns0) (fun _ _ hp => hp) s h
  · intro c newpod h1 h2
    unfold stateAfter checkPostgresPods
    rw [checkPostgresPods_idle c newpod (kube u) 8 _ h1 h2]
  · intro c newpod hrole hcl
    refine key c newpod fun hv => ?_
    have h1 : newpod.labels.get u.LABEL_PRIMARY ≠ "true" := by rw [hrole]; decide
    rw [serviceName, if_neg h1, hcl] at hv
    exact absurd hv (append_replica_ne cl)
  · intro c newpod hH
    exact key c newpod hH

/-- Witness of C9 as amended: the failover of the cluster `c3` to `r1`, which
leaves `r1` alone, relabelled; the role labeling of the second replica `r2` of
`c3`, after which two replicas carry `c3-replica` and one pod carries `c3`; and
the role labeling of the primary `c1-a` of `c1`, the first pod to carry `c1`. -/
theorem atMostOnePrimary_preserved_witness :
    (atMostOnePrimary specKeys "c3" "ns"
        (stateAfter (Failover (kube specKeys) "c3" failoverTask "ns") c3State) ∧
      (stateAfter (Failover (kube specKeys) "c3" failoverTask "ns") c3State).pods =
        [podR1.withLabel "service-selector" "c3"]) ∧
    (atMostOnePrimary specKeys "c3" "ns"
        (stateAfter (checkPostgresPods (kube specKeys) ⟨"ns"⟩ podR2) c3Replicas) ∧
      (stateAfter (checkPostgresPods (kube specKeys) ⟨"ns"⟩ podR2) c3Replicas).pods =
        [podC3, podR1, podR2.withLabel "service-selector" "c3-replica"]) ∧
    (atMostOnePrimary specKeys "c1" "ns"
        (stateAfter (checkPostgresPods (kube specKeys) ⟨"ns"⟩ podC1a) c1Fresh) ∧
      (stateAfter (checkPostgresPods (kube specKeys) ⟨"ns"⟩ podC1a) c1Fresh).pods =
        [podC1a.withLabel "service-selector" "c1"]) :=
  ⟨⟨(atMostOnePrimary_preserved specKeys c3State "c3" "ns" (by decide)).1 "c3" failoverTask
      "ns", by decide⟩,
    ⟨(atMostOnePrimary_preserved specKeys c3Replicas "c3" "ns" (by decide)).2.2.1 ⟨"ns"⟩ podR2
      (by decide) (by decide), by decide⟩,
    ⟨(atMostOnePrimary_preserved specKeys c1Fresh "c1" "ns" (by decide)).2.2.2 ⟨"ns"⟩ podC1a
      (by decide), by decide⟩⟩

end Lemmas

end PostgresOperator
